import Mathlib

/-!
# go-k8-ml-deploy: resource-bundle lifecycle orchestrator

A shallow embedding of `server/helpers/helpers.go` and of the three request
handlers of `server/main.go`, followed by the properties proved about them.

Conventions of the embedding:

* a Go `string` is a Lean `String`; the rune slice `[]rune(s)` is `s.data`;
* a Go pointer field (`*int`, `*string`) is an `Option`; dereferencing `nil`
  is the fault `Fault.nilDereference`;
* a Go `error` is observed by this program only through `Error()` and through
  `errors.IsConflict` (inside `retry.RetryOnConflict`); it is a record of
  those two observations and of the status reason NotFound, which the program
  never asks for; the nil error is `none`;
* the cluster client is an arbitrary state machine: every method takes the
  cluster state and returns its response together with the next state;
* every client call an operation issues is recorded, in order, in a trace, and
  every value it sends on its channel is recorded in `sent`.
-/

set_option linter.dupNamespace false

namespace Helpers

/-! ## Strings -/

/-- ASCII upper-case letter, `'A' <= r && r <= 'Z'`. -/
def isUpperAscii (r : Char) : Bool := decide (65 ≤ r.toNat) && decide (r.toNat ≤ 90)

/-- ASCII lower-case letter. -/
def isLowerAscii (r : Char) : Bool := decide (97 ≤ r.toNat) && decide (r.toNat ≤ 122)

/-- ASCII decimal digit. -/
def isDigitAscii (r : Char) : Bool := decide (48 ≤ r.toNat) && decide (r.toNat ≤ 57)

/-- Go `unicode.ToLower`: runes up to `MaxASCII` are handled inline (`'A'..'Z'`
are shifted by `'a' - 'A'`, the others returned as they are); every other rune
goes through the Unicode case tables, which are the parameter `caseTable`. -/
def unicodeToLower (caseTable : Char → Char) (r : Char) : Char :=
  if r.toNat ≤ 127 then
    if isUpperAscii r then Char.ofNat (r.toNat + 32) else r
  else caseTable r

/-- Go `strings.ToLower`: `unicode.ToLower` mapped over the runes. -/
def ToLower (caseTable : Char → Char) (s : String) : String :=
  String.mk (s.data.map (unicodeToLower caseTable))

/-- The regexp class `\W` of Go (RE2): every rune outside `[0-9A-Za-z_]`. -/
def isNonWord (r : Char) : Bool :=
  !(isDigitAscii r || isUpperAscii r || isLowerAscii r || r.toNat == 95)

/-- One rune matched by the pattern `[\W_]`. -/
def matchesPattern (r : Char) : Bool := isNonWord r || r.toNat == 95

/-- The call `r.ReplaceAllString(s, "")` for the compiled pattern `[\W_]`:
every match is one rune, and each is replaced by the empty string. -/
def ReplaceAllString (s : String) : String :=
  String.mk (s.data.filter (fun r => !matchesPattern r))

/-- Go `strings.Join`. -/
def Join : List String → String → String
  | [], _ => ""
  | [a], _ => a
  | a :: b :: rest, sep => a ++ sep ++ Join (b :: rest) sep

/-- Go `strings.HasSuffix`. -/
def HasSuffix (s suffix : String) : Bool := suffix.data.isSuffixOf s.data

/-! ## Request types -/

/-- A Go `error` value: what this program observes of it (`message`,
`conflict`) and what the cluster means by it (`notFound`). -/
structure GoError where
  /-- the text returned by `Error()` -/
  message : String
  /-- what `errors.IsConflict` answers for it -/
  conflict : Bool
  /-- what `errors.IsNotFound` answers for it: the status reason is NotFound,
  the resource read does not exist; the program never asks -/
  notFound : Bool := false
deriving DecidableEq, Repr

/-- A run-time panic. -/
inductive Fault where
  | nilDereference
  | indexOutOfRange
deriving DecidableEq, Repr

structure Limits where
  Memory : Option Int
  Cpu : Option Int
  Gpu : Option Int
deriving DecidableEq, Repr

structure Requests where
  Memory : Option Int
  Cpu : Option Int
  Gpu : Option Int
deriving DecidableEq, Repr

structure ModelDeploy where
  Model_names : List String
  Endpoint : String
  Image : String
  Canary : Bool
  Canary_weight : Option String
  Canary_version : Option String
  Model_stage : String
  Limits : Limits
  Requests : Requests
deriving DecidableEq, Repr

structure ModelDestroy where
  Endpoint : String
  Canary : Bool
  Canary_version : Option String
deriving DecidableEq, Repr

structure ModelTransition where
  Endpoint : String
  Canary_version : Option String
deriving DecidableEq, Repr

structure DeployReturn where
  Endpoint : String
  Canary : Bool
  Canary_version : String
deriving DecidableEq, Repr

structure DestroyReturn where
  Deleted : String
  Canary : Bool
  Canary_version : String
deriving DecidableEq, Repr

structure TransReturn where
  Transition : String
deriving DecidableEq, Repr

/-! ## Parsing of the three intents -/

/-- The receiver after `ParseModelParams`, with its three results. The pattern
is a constant that compiles, so `err` is the nil error. -/
structure ParsedModel where
  model : ModelDeploy
  model_names : String
  endpoint : String
  err : Option GoError
deriving DecidableEq, Repr

/-- The first statement of `ParseModelParams`: when both accelerator pointers
are set and differ, the request is overwritten with the limit. -/
def correctGpu (model : ModelDeploy) : ModelDeploy :=
  match model.Limits.Gpu, model.Requests.Gpu with
  | some l, some r =>
    if l ≠ r then { model with Requests := { model.Requests with Gpu := some l } } else model
  | _, _ => model

def ParseModelParams (caseTable : Char → Char) (model : ModelDeploy) : ParsedModel :=
  let model := correctGpu model
  let model_names := Join model.Model_names ","
  let parsed_endpoint := ReplaceAllString (ToLower caseTable model.Endpoint)
  let runes := parsed_endpoint.data
  let endpoint := if runes.length ≥ 14 then String.mk (runes.take 13) else String.mk runes
  { model := model, model_names := model_names, endpoint := endpoint, err := none }

/-- The method `ParseDestroyParams` rewrites `model.Endpoint` in place; with the canary
flag set it dereferences `model.Canary_version`. -/
def ParseDestroyParams (caseTable : Char → Char) (model : ModelDestroy) :
    Except Fault (ModelDestroy × Option GoError) :=
  let parsed_endpoint := ReplaceAllString (ToLower caseTable model.Endpoint)
  let runes := parsed_endpoint.data
  let model :=
    if runes.length ≥ 14 then { model with Endpoint := String.mk (runes.take 13) }
    else { model with Endpoint := String.mk runes }
  if model.Canary then
    match model.Canary_version with
    | none => .error Fault.nilDereference
    | some v => .ok ({ model with Endpoint := model.Endpoint ++ v }, none)
  else .ok (model, none)

/-- The method `ParseTransitionParams` rewrites `model.Endpoint` in place and returns the
name of the bundle to destroy. -/
def ParseTransitionParams (caseTable : Char → Char) (model : ModelTransition) :
    ModelTransition × String × Option GoError :=
  let parsed_endpoint := ReplaceAllString (ToLower caseTable model.Endpoint)
  let runes := parsed_endpoint.data
  let model :=
    if runes.length ≥ 14 then { model with Endpoint := String.mk (runes.take 13) }
    else { model with Endpoint := String.mk runes }
  let toDestroy :=
    match model.Canary_version with
    | some v => model.Endpoint ++ v
    | none => ""
  (model, toDestroy, none)

/-- The identifier as the specification words it: lower-case the name, delete
every character that is not an ASCII letter or digit, keep at most the first
13 characters. -/
def deriveSpec (caseTable : Char → Char) (raw : String) : String :=
  String.mk (((raw.data.map (unicodeToLower caseTable)).filter
    (fun r => isDigitAscii r || isUpperAscii r || isLowerAscii r)).take 13)

/-! ## Cluster objects

The Kubernetes API types are declared outside the repository; each is embedded
with the fields the program sets or reads, plus the server-owned fields of a
service that a read returns. A Go map is an association list; the nil map is
the empty list. -/

inductive Format where
  | BinarySI
  | DecimalSI
deriving DecidableEq, Repr

/-- A `resource.Quantity`: `value * 10 ^ scale`. -/
structure Quantity where
  value : Int
  scale : Int
  format : Format
deriving DecidableEq, Repr

/-- Go `resource.NewQuantity`. -/
def NewQuantity (value : Int) (format : Format) : Quantity :=
  { value := value, scale := 0, format := format }

/-- Go `resource.NewMilliQuantity`. -/
def NewMilliQuantity (value : Int) (format : Format) : Quantity :=
  { value := value, scale := -3, format := format }

abbrev ResourceList := List (String × Quantity)

structure ResourceRequirements where
  Limits : ResourceList
  Requests : ResourceList
deriving DecidableEq, Repr

structure ObjectMeta where
  Name : String
  Namespace : String
  Labels : List (String × String) := []
  Annotations : List (String × String) := []
  ResourceVersion : String := ""
deriving DecidableEq, Repr

structure ContainerPort where
  Name : String
  ContainerPort : Int
deriving DecidableEq, Repr

structure EnvVar where
  Name : String
  Value : String
deriving DecidableEq, Repr

structure Container where
  Name : String
  Image : String
  ImagePullPolicy : String
  Ports : List ContainerPort
  Env : List EnvVar
  Resources : ResourceRequirements
deriving DecidableEq, Repr

structure PodSpec where
  Containers : List Container
deriving DecidableEq, Repr

structure PodTemplateSpec where
  ObjectMeta : ObjectMeta
  Spec : PodSpec
deriving DecidableEq, Repr

structure LabelSelector where
  MatchLabels : List (String × String)
deriving DecidableEq, Repr

structure DeploymentSpec where
  Selector : Option LabelSelector
  Template : PodTemplateSpec
deriving DecidableEq, Repr

structure Deployment where
  ObjectMeta : ObjectMeta
  Spec : DeploymentSpec
deriving DecidableEq, Repr

inductive IntOrString where
  | int (intVal : Int)
  | str (strVal : String)
deriving DecidableEq, Repr

/-- Go `intstr.FromString`. -/
def FromString (val : String) : IntOrString := IntOrString.str val

structure ServicePort where
  Name : String
  Protocol : String
  Port : Int
  TargetPort : IntOrString
  NodePort : Int := 0
deriving DecidableEq, Repr

structure ServiceSpec where
  Selector : List (String × String)
  Ports : List ServicePort
  ClusterIP : String := ""
  ServiceType : String := ""
deriving DecidableEq, Repr

structure Service where
  ObjectMeta : ObjectMeta
  Spec : ServiceSpec
deriving DecidableEq, Repr

structure ServiceBackendPort where
  Number : Int
deriving DecidableEq, Repr

structure IngressServiceBackend where
  Name : String
  Port : ServiceBackendPort
deriving DecidableEq, Repr

structure IngressBackend where
  Service : Option IngressServiceBackend
deriving DecidableEq, Repr

structure HTTPIngressPath where
  Path : String
  PathType : Option String
  Backend : IngressBackend
deriving DecidableEq, Repr

structure HTTPIngressRuleValue where
  Paths : List HTTPIngressPath
deriving DecidableEq, Repr

structure IngressRule where
  HTTP : Option HTTPIngressRuleValue
deriving DecidableEq, Repr

structure IngressSpec where
  IngressClassName : Option String
  Rules : List IngressRule
deriving DecidableEq, Repr

structure Ingress where
  ObjectMeta : ObjectMeta
  Spec : IngressSpec
deriving DecidableEq, Repr

structure CrossVersionObjectReference where
  Kind : String
  APIVersion : String
  Name : String
deriving DecidableEq, Repr

structure MetricTarget where
  TargetType : String
  AverageUtilization : Option Int
deriving DecidableEq, Repr

structure ResourceMetricSource where
  Name : String
  Target : MetricTarget
deriving DecidableEq, Repr

structure MetricSpec where
  MetricType : String
  Resource : Option ResourceMetricSource
deriving DecidableEq, Repr

structure HorizontalPodAutoscalerSpec where
  ScaleTargetRef : CrossVersionObjectReference
  MinReplicas : Option Int
  MaxReplicas : Int
  Metrics : List MetricSpec
deriving DecidableEq, Repr

structure HorizontalPodAutoscaler where
  ObjectMeta : ObjectMeta
  Spec : HorizontalPodAutoscalerSpec
deriving DecidableEq, Repr

/-! ## Desired-state builders -/

def initResources (model : ModelDeploy) : ResourceRequirements :=
  let resources : ResourceRequirements := { Limits := [], Requests := [] }
  let resources :=
    match model.Limits.Memory with
    | some v => { resources with Limits := [("memory", NewQuantity v Format.BinarySI)] }
    | none => resources
  let resources :=
    match model.Limits.Cpu with
    | some v => { resources with Limits := [("cpu", NewMilliQuantity v Format.DecimalSI)] }
    | none => resources
  let resources :=
    match model.Limits.Gpu with
    | some v =>
      { resources with Limits := [("nvidia.com/gpu", NewMilliQuantity v Format.DecimalSI)] }
    | none => resources
  let resources :=
    match model.Requests.Memory with
    | some v => { resources with Requests := [("memory", NewQuantity v Format.BinarySI)] }
    | none => resources
  let resources :=
    match model.Requests.Cpu with
    | some v => { resources with Requests := [("cpu", NewMilliQuantity v Format.DecimalSI)] }
    | none => resources
  let resources :=
    match model.Requests.Gpu with
    | some v =>
      { resources with Requests := [("nvidia.com/gpu", NewMilliQuantity v Format.DecimalSI)] }
    | none => resources
  resources

/-- The prologue shared by the four builders:
`if model.Canary_version != nil { *model.Canary_version } else { "" }`. -/
def canaryVersionOrEmpty (model : ModelDeploy) : String :=
  match model.Canary_version with
  | some v => v
  | none => ""

def newDeployment (model : ModelDeploy) (model_names endpoint : String) : Deployment :=
  let canary_version := canaryVersionOrEmpty model
  { ObjectMeta :=
      { Name := endpoint ++ canary_version
        Namespace := "namespace"
        Labels := [("app", endpoint ++ canary_version)] }
    Spec :=
      { Selector := some { MatchLabels := [("app", endpoint ++ canary_version)] }
        Template :=
          { ObjectMeta :=
              { Name := "", Namespace := "", Labels := [("app", endpoint ++ canary_version)] }
            Spec :=
              { Containers :=
                  [{ Name := endpoint ++ canary_version
                     Image := model.Image
                     ImagePullPolicy := "Always"
                     Ports := [{ Name := endpoint ++ canary_version, ContainerPort := 8080 }]
                     Env :=
                       [{ Name := "MODEL_NAMES", Value := model_names },
                        { Name := "ENDPOINT", Value := endpoint },
                        { Name := "MODEL_STAGE", Value := model.Model_stage }]
                     Resources := initResources model }] } } } }

def newService (model : ModelDeploy) (endpoint : String) : Service :=
  let canary_version := canaryVersionOrEmpty model
  { ObjectMeta := { Name := endpoint ++ canary_version, Namespace := "namespace" }
    Spec :=
      { Selector := [("app", endpoint ++ canary_version)]
        Ports :=
          [{ Name := endpoint ++ canary_version
             Protocol := "TCP"
             Port := 8080
             TargetPort := FromString (endpoint ++ canary_version) }] } }

/-- For a canary intent the weight pointer is dereferenced without a check. -/
def createIngressAnnotations (model : ModelDeploy) : Except Fault (List (String × String)) :=
  if !model.Canary then
    .ok [("nginx.ingress.kubernetes.io/rewrite-target", "/$2")]
  else
    match model.Canary_weight with
    | none => .error Fault.nilDereference
    | some w =>
      .ok [("nginx.ingress.kubernetes.io/rewrite-target", "/$2"),
           ("nginx.ingress.kubernetes.io/canary", "true"),
           ("nginx.ingress.kubernetes.io/canary-weight", w)]

def newIngress (model : ModelDeploy) (endpoint : String) : Except Fault Ingress :=
  let canary_version := canaryVersionOrEmpty model
  match createIngressAnnotations model with
  | .error f => .error f
  | .ok annotations =>
    .ok
      { ObjectMeta :=
          { Name := endpoint ++ canary_version
            Namespace := "namespace"
            Annotations := annotations }
        Spec :=
          { IngressClassName := some "inference"
            Rules :=
              [{ HTTP := some
                  { Paths :=
                      [{ Path := "/()(invocations/" ++ endpoint ++ ".*)"
                         PathType := some "Prefix"
                         Backend :=
                           { Service := some
                               { Name := endpoint ++ canary_version
                                 Port := { Number := 8080 } } } }] } }] } }

def newHpa (model : ModelDeploy) (endpoint : String) : HorizontalPodAutoscaler :=
  let canary_version := canaryVersionOrEmpty model
  { ObjectMeta := { Name := endpoint, Namespace := "namespace" }
    Spec :=
      { ScaleTargetRef :=
          { Kind := "Deployment", APIVersion := "apps/v1", Name := endpoint ++ canary_version }
        MinReplicas := some 1
        MaxReplicas := 10
        Metrics :=
          [{ MetricType := "Resource"
             Resource := some
               { Name := "cpu"
                 Target := { TargetType := "Utilization", AverageUtilization := some 50 } } }] } }

/-! ## The cluster client and the record of a run -/

/-- One typed client (`DeploymentInterface`, `ServiceInterface`, ...) over the
cluster state `σ`, for the resource type `ρ`. No assumption is made on how it
answers. -/
structure Client (σ ρ : Type) where
  Get : σ → String → Except GoError ρ × σ
  Create : σ → ρ → Except GoError ρ × σ
  Update : σ → ρ → Except GoError ρ × σ
  Delete : σ → String → Option GoError × σ

/-- The four clients `main` builds from the clientset. -/
structure Clients (σ : Type) where
  deploymentsClient : Client σ Deployment
  serviceClient : Client σ Service
  ingressClient : Client σ Ingress
  hpaClient : Client σ HorizontalPodAutoscaler

inductive Kind where
  | deployment
  | service
  | ingress
  | hpa
deriving DecidableEq, Repr

inductive Object where
  | deployment (o : Deployment)
  | service (o : Service)
  | ingress (o : Ingress)
  | hpa (o : HorizontalPodAutoscaler)
deriving DecidableEq, Repr

/-- The `ObjectMeta.Name` of an object. -/
def Object.name : Object → String
  | .deployment o => o.ObjectMeta.Name
  | .service o => o.ObjectMeta.Name
  | .ingress o => o.ObjectMeta.Name
  | .hpa o => o.ObjectMeta.Name

/-- The error half of a client response (`nil` on success). -/
def errOf {ρ : Type} : Except GoError ρ → Option GoError
  | .ok _ => none
  | .error e => some e

/-- One call on a client, with what it was given and what it answered. -/
inductive Event where
  | get (kind : Kind) (name : String) (found : Option Object) (err : Option GoError)
  | create (obj : Object) (err : Option GoError)
  | update (obj : Object) (err : Option GoError)
  | delete (kind : Kind) (name : String) (err : Option GoError)
deriving DecidableEq, Repr

def Event.isGet : Event → Bool
  | .get .. => true
  | _ => false

def Event.isCreate : Event → Bool
  | .create .. => true
  | _ => false

def Event.isUpdate : Event → Bool
  | .update .. => true
  | _ => false

def Event.isDelete : Event → Bool
  | .delete .. => true
  | _ => false

/-- What one operation did: the cluster state it left, the client calls it
issued (oldest first), the values it sent on its channel (oldest first), and
its return value, or the panic that ended it. -/
structure Run (σ α : Type) where
  cluster : σ
  calls : List Event
  sent : List (Option GoError)
  ret : Except Fault α

/-! ## Create-or-update -/

def CrudDeployment {σ : Type} (deploymentsClient : Client σ Deployment) (model : ModelDeploy)
    (model_names endpoint : String) (s : σ) : Run σ Unit :=
  let deployment := newDeployment model model_names endpoint
  match deploymentsClient.Get s endpoint with
  | (.error getErr, s1) =>
    let getEv := Event.get Kind.deployment endpoint none (some getErr)
    if HasSuffix getErr.message "not found" then
      match deploymentsClient.Create s1 deployment with
      | (.error err, s2) =>
        { cluster := s2, calls := [getEv, Event.create (.deployment deployment) (some err)],
          sent := [some err], ret := .ok () }
      | (.ok _, s2) =>
        { cluster := s2, calls := [getEv, Event.create (.deployment deployment) none],
          sent := [none], ret := .ok () }
    else
      { cluster := s1, calls := [getEv], sent := [some getErr], ret := .ok () }
  | (.ok found, s1) =>
    let getEv := Event.get Kind.deployment endpoint (some (.deployment found)) none
    match deploymentsClient.Update s1 deployment with
    | (.error updateErr, s2) =>
      { cluster := s2, calls := [getEv, Event.update (.deployment deployment) (some updateErr)],
        sent := [some updateErr], ret := .ok () }
    | (.ok _, s2) =>
      { cluster := s2, calls := [getEv, Event.update (.deployment deployment) none],
        sent := [none], ret := .ok () }

def CrudService {σ : Type} (serviceClient : Client σ Service) (model : ModelDeploy)
    (endpoint : String) (s : σ) : Run σ Unit :=
  let service := newService model endpoint
  match serviceClient.Get s endpoint with
  | (.error getErr, s1) =>
    let getEv := Event.get Kind.service endpoint none (some getErr)
    if HasSuffix getErr.message "not found" then
      match serviceClient.Create s1 service with
      | (.error err, s2) =>
        { cluster := s2, calls := [getEv, Event.create (.service service) (some err)],
          sent := [some err], ret := .ok () }
      | (.ok _, s2) =>
        { cluster := s2, calls := [getEv, Event.create (.service service) none],
          sent := [none], ret := .ok () }
    else
      { cluster := s1, calls := [getEv], sent := [some getErr], ret := .ok () }
  | (.ok found, s1) =>
    let getEv := Event.get Kind.service endpoint (some (.service found)) none
    match serviceClient.Update s1 service with
    | (.error updateErr, s2) =>
      { cluster := s2, calls := [getEv, Event.update (.service service) (some updateErr)],
        sent := [some updateErr], ret := .ok () }
    | (.ok _, s2) =>
      { cluster := s2, calls := [getEv, Event.update (.service service) none],
        sent := [none], ret := .ok () }

/-- Here `newIngress` runs first; when it panics nothing is read and nothing is
sent. -/
def CrudIngress {σ : Type} (ingressClient : Client σ Ingress) (model : ModelDeploy)
    (endpoint : String) (s : σ) : Run σ Unit :=
  match newIngress model endpoint with
  | .error f => { cluster := s, calls := [], sent := [], ret := .error f }
  | .ok ingress =>
    match ingressClient.Get s endpoint with
    | (.error getErr, s1) =>
      let getEv := Event.get Kind.ingress endpoint none (some getErr)
      if HasSuffix getErr.message "not found" then
        match ingressClient.Create s1 ingress with
        | (.error err, s2) =>
          { cluster := s2, calls := [getEv, Event.create (.ingress ingress) (some err)],
            sent := [some err], ret := .ok () }
        | (.ok _, s2) =>
          { cluster := s2, calls := [getEv, Event.create (.ingress ingress) none],
            sent := [none], ret := .ok () }
      else
        { cluster := s1, calls := [getEv], sent := [some getErr], ret := .ok () }
    | (.ok found, s1) =>
      let getEv := Event.get Kind.ingress endpoint (some (.ingress found)) none
      match ingressClient.Update s1 ingress with
      | (.error updateErr, s2) =>
        { cluster := s2, calls := [getEv, Event.update (.ingress ingress) (some updateErr)],
          sent := [some updateErr], ret := .ok () }
      | (.ok _, s2) =>
        { cluster := s2, calls := [getEv, Event.update (.ingress ingress) none],
          sent := [none], ret := .ok () }

/-- The operation `CrudHpa` has no channel: its outcome is its return value. -/
def CrudHpa {σ : Type} (hpaClient : Client σ HorizontalPodAutoscaler) (model : ModelDeploy)
    (endpoint : String) (s : σ) : Run σ (Option GoError) :=
  let hpa := newHpa model endpoint
  match hpaClient.Get s endpoint with
  | (.error getErr, s1) =>
    let getEv := Event.get Kind.hpa endpoint none (some getErr)
    if HasSuffix getErr.message "not found" then
      match hpaClient.Create s1 hpa with
      | (.error err, s2) =>
        { cluster := s2, calls := [getEv, Event.create (.hpa hpa) (some err)],
          sent := [], ret := .ok (some err) }
      | (.ok _, s2) =>
        { cluster := s2, calls := [getEv, Event.create (.hpa hpa) none],
          sent := [], ret := .ok none }
    else
      { cluster := s1, calls := [getEv], sent := [], ret := .ok (some getErr) }
  | (.ok found, s1) =>
    let getEv := Event.get Kind.hpa endpoint (some (.hpa found)) none
    match hpaClient.Update s1 hpa with
    | (.error updateErr, s2) =>
      { cluster := s2, calls := [getEv, Event.update (.hpa hpa) (some updateErr)],
        sent := [], ret := .ok (some updateErr) }
    | (.ok _, s2) =>
      { cluster := s2, calls := [getEv, Event.update (.hpa hpa) none],
        sent := [], ret := .ok none }

/-! ## Cutover -/

/-- The field of `wait.Backoff` that bounds the number of attempts (the other
fields only set the sleeping time between attempts). -/
structure Backoff where
  Steps : Nat
deriving DecidableEq, Repr

/-- Modelled from the spec: `retry.DefaultRetry` belongs to the client library,
not to the repository; the "fixed retry budget" of the specification is its
`Steps`, which the library sets to 5. -/
def DefaultRetry : Backoff := { Steps := 5 }

/-- Modelled from the spec: `retry.RetryOnConflict` belongs to the client
library, not to the repository. "On a conflicting concurrent update the whole
read-modify-write is retried with bounded exponential backoff; other errors
abort immediately": `fn` is attempted while steps remain; a nil error ends the
loop with success, an error that is not a conflict is returned at once, a
conflict is remembered and, when the steps are used up, returned. A panic of
`fn` ends the loop. `lastErr` is the last conflict seen so far. -/
def retryLoop {σ : Type} (fn : σ → Run σ (Option GoError)) :
    Nat → Option GoError → σ → Run σ (Option GoError)
  | 0, lastErr, s => { cluster := s, calls := [], sent := [], ret := .ok lastErr }
  | steps + 1, _, s =>
    let attempt := fn s
    match attempt.ret with
    | .error _ => attempt
    | .ok none => attempt
    | .ok (some err) =>
      if err.conflict then
        let rest := retryLoop fn steps (some err) attempt.cluster
        { cluster := rest.cluster, calls := attempt.calls ++ rest.calls,
          sent := attempt.sent ++ rest.sent, ret := rest.ret }
      else attempt

/-- Modelled from the spec: see `retryLoop`. -/
def RetryOnConflict {σ : Type} (backoff : Backoff) (fn : σ → Run σ (Option GoError)) (s : σ) :
    Run σ (Option GoError) :=
  retryLoop fn backoff.Steps none s

/-- The closure `TransitionService` hands to `RetryOnConflict`: read the
service named `model.Endpoint`, repoint it, write it back. The selector
assignment dereferences `model.Canary_version`; `Ports[0]` indexes the ports of
the service that was read. -/
def transitionAttempt {σ : Type} (serviceClient : Client σ Service) (model : ModelTransition)
    (s : σ) : Run σ (Option GoError) :=
  match serviceClient.Get s model.Endpoint with
  | (.error getErr, s1) =>
    { cluster := s1, calls := [Event.get Kind.service model.Endpoint none (some getErr)],
      sent := [], ret := .ok (some getErr) }
  | (.ok service, s1) =>
    let getEv := Event.get Kind.service model.Endpoint (some (.service service)) none
    match model.Canary_version with
    | none => { cluster := s1, calls := [getEv], sent := [], ret := .error Fault.nilDereference }
    | some v =>
      match service.Spec.Ports with
      | [] => { cluster := s1, calls := [getEv], sent := [], ret := .error Fault.indexOutOfRange }
      | port0 :: ports =>
        let service : Service :=
          { service with
            Spec :=
              { service.Spec with
                Selector := [("app", model.Endpoint ++ v)]
                Ports :=
                  { port0 with
                    Name := model.Endpoint
                    TargetPort := FromString (model.Endpoint ++ v) } :: ports } }
        match serviceClient.Update s1 service with
        | (resp, s2) =>
          { cluster := s2, calls := [getEv, Event.update (.service service) (errOf resp)],
            sent := [], ret := .ok (errOf resp) }

def TransitionService {σ : Type} (serviceClient : Client σ Service) (model : ModelTransition)
    (_toDestroy : String) (s : σ) : Run σ (Option GoError) :=
  RetryOnConflict DefaultRetry (transitionAttempt serviceClient model) s

/-! ## Responses -/

/-- The message handed to `json.Marshal`, which cannot fail on it. -/
def CreateResponse (model : ModelDeploy) (endpoint : String) : DeployReturn × Option GoError :=
  ({ Endpoint := endpoint, Canary := model.Canary,
     Canary_version := match model.Canary_version with
       | some v => v
       | none => "" }, none)

def CreateDestroyResponse (model : ModelDestroy) (endpoint : String) :
    DestroyReturn × Option GoError :=
  ({ Deleted := "/invocations/" ++ endpoint, Canary := model.Canary,
     Canary_version := match model.Canary_version with
       | some v => v
       | none => "" }, none)

def CreateTransResponse (endpoint : String) : TransReturn × Option GoError :=
  ({ Transition := "/invocations/" ++ endpoint }, none)

/-! ## Fan-out join -/

/-- A buffered `chan error`: its capacity and the values delivered on it, in
arrival order. Nothing else is ever delivered. -/
structure Channel where
  cap : Nat
  queue : List (Option GoError)
deriving DecidableEq, Repr

/-- The receiving loop of `CheckErrors`: `i` counts the values received,
`errorsSet` collects the non-nil ones; the loop ends when `i == cap(channel)`.
A receive on the exhausted queue blocks for ever: `none`. -/
def receiveLoop (cap : Nat) : List (Option GoError) → Nat → List GoError → Option (List GoError)
  | [], _, _ => none
  | crudErr :: rest, i, errorsSet =>
    let i := i + 1
    let errorsSet :=
      match crudErr with
      | some e => errorsSet ++ [e]
      | none => errorsSet
    if i = cap then some errorsSet else receiveLoop cap rest i errorsSet

/-- The second loop of `CheckErrors`, over `errorsSet`. -/
def joinErrors : List GoError → String × Bool → String × Bool
  | [], acc => acc
  | value :: rest, (valueErr, _) => joinErrors rest (valueErr ++ (value.message ++ " \n"), true)

def CheckErrors (channel : Channel) : Option (String × Bool) :=
  match receiveLoop channel.cap channel.queue 0 [] with
  | none => none
  | some errorsSet => some (joinErrors errorsSet ("", false))

/-! ## Teardown -/

def DeleteDeployment {σ : Type} (deploymentsClient : Client σ Deployment) (endpoint : String)
    (s : σ) : Run σ Unit :=
  match deploymentsClient.Delete s endpoint with
  | (some err, s1) =>
    { cluster := s1, calls := [Event.delete Kind.deployment endpoint (some err)],
      sent := [some err], ret := .ok () }
  | (none, s1) =>
    { cluster := s1, calls := [Event.delete Kind.deployment endpoint none],
      sent := [none], ret := .ok () }

def DeleteService {σ : Type} (serviceClient : Client σ Service) (endpoint : String)
    (s : σ) : Run σ Unit :=
  match serviceClient.Delete s endpoint with
  | (some err, s1) =>
    { cluster := s1, calls := [Event.delete Kind.service endpoint (some err)],
      sent := [some err], ret := .ok () }
  | (none, s1) =>
    { cluster := s1, calls := [Event.delete Kind.service endpoint none],
      sent := [none], ret := .ok () }

def DeleteIngress {σ : Type} (ingressClient : Client σ Ingress) (endpoint : String)
    (s : σ) : Run σ Unit :=
  match ingressClient.Delete s endpoint with
  | (some err, s1) =>
    { cluster := s1, calls := [Event.delete Kind.ingress endpoint (some err)],
      sent := [some err], ret := .ok () }
  | (none, s1) =>
    { cluster := s1, calls := [Event.delete Kind.ingress endpoint none],
      sent := [none], ret := .ok () }

def DeleteHpa {σ : Type} (hpaClient : Client σ HorizontalPodAutoscaler) (endpoint : String)
    (s : σ) : Run σ Unit :=
  match hpaClient.Delete s endpoint with
  | (some err, s1) =>
    { cluster := s1, calls := [Event.delete Kind.hpa endpoint (some err)],
      sent := [some err], ret := .ok () }
  | (none, s1) =>
    { cluster := s1, calls := [Event.delete Kind.hpa endpoint none],
      sent := [none], ret := .ok () }

end Helpers

/-! ## The request handlers of `main.go`

`body` is what `c.BodyParser(model)` left in the model, `none` when it
reported a parse error. The goroutines a handler launches use four different
clients; they are run here one after the other in launch order, which is one
of the schedules Go allows, and the channel receives their values in that
order. -/

namespace Main

open Helpers

inductive Reply where
  | deploy (message : DeployReturn)
  | destroy (message : DestroyReturn)
  | transition (message : TransReturn)
deriving DecidableEq, Repr

/-- How a handler ends: `c.Send(response)`, a `fiber.NewError`, a panic (of the
handler or of a goroutine it launched), or blocked for ever in `CheckErrors`. -/
inductive Response where
  | sent (reply : Reply)
  | error (code : Nat) (message : String)
  | crash (fault : Fault)
  | blocked
deriving DecidableEq, Repr

structure Handled (σ : Type) where
  cluster : σ
  calls : List Event
  response : Response

/-- The method `InitModelDefaults`, applied to the fresh model before the body is parsed
into it. -/
def InitModelDefaults (model : ModelDeploy) : ModelDeploy :=
  { model with
    Image := "000000000000.dkr.ecr.us-east-1.amazonaws.com/name:latest"
    Model_stage := "Production" }

/-- The handler of `POST /deploy`. -/
def deployHandler {σ : Type} (clients : Clients σ) (caseTable : Char → Char)
    (body : Option ModelDeploy) (s : σ) : Handled σ :=
  match body with
  | none => { cluster := s, calls := [], response := .error 400 "Wrong json format" }
  | some model =>
    let parsed := ParseModelParams caseTable model
    match parsed.err with
    | some _ => { cluster := s, calls := [], response := .error 400 "Wrong endpoint format" }
    | none =>
      let model := parsed.model
      let endpoint := parsed.endpoint
      let r1 := CrudDeployment clients.deploymentsClient model parsed.model_names endpoint s
      let r2 := CrudService clients.serviceClient model endpoint r1.cluster
      let r3 := CrudIngress clients.ingressClient model endpoint r2.cluster
      let calls := r1.calls ++ r2.calls ++ r3.calls
      match r3.ret with
      | .error f => { cluster := r3.cluster, calls := calls, response := .crash f }
      | .ok _ =>
        match CheckErrors { cap := 3, queue := r1.sent ++ r2.sent ++ r3.sent } with
        | none => { cluster := r3.cluster, calls := calls, response := .blocked }
        | some (errValue, true) =>
          { cluster := r3.cluster, calls := calls, response := .error 400 errValue }
        | some (_, false) =>
          let h := CrudHpa clients.hpaClient model endpoint r3.cluster
          match h.ret with
          | .error f => { cluster := h.cluster, calls := calls ++ h.calls, response := .crash f }
          | .ok (some errHpa) =>
            { cluster := h.cluster, calls := calls ++ h.calls,
              response := .error 400 errHpa.message }
          | .ok none =>
            match CreateResponse model endpoint with
            | (_, some _) =>
              { cluster := h.cluster, calls := calls ++ h.calls,
                response := .error 400 "Wrong json format" }
            | (message, none) =>
              { cluster := h.cluster, calls := calls ++ h.calls,
                response := .sent (.deploy message) }

/-- The handler of `POST /destroy`. The error of `ParseDestroyParams` is
always nil (and the handler would not return on it). -/
def destroyHandler {σ : Type} (clients : Clients σ) (caseTable : Char → Char)
    (body : Option ModelDestroy) (s : σ) : Handled σ :=
  match body with
  | none => { cluster := s, calls := [], response := .error 400 "Wrong json format" }
  | some model =>
    match ParseDestroyParams caseTable model with
    | .error f => { cluster := s, calls := [], response := .crash f }
    | .ok (model, _) =>
      let d1 := DeleteDeployment clients.deploymentsClient model.Endpoint s
      let d2 := DeleteService clients.serviceClient model.Endpoint d1.cluster
      let d3 := DeleteIngress clients.ingressClient model.Endpoint d2.cluster
      let d4 := DeleteHpa clients.hpaClient model.Endpoint d3.cluster
      let calls := d1.calls ++ d2.calls ++ d3.calls ++ d4.calls
      match CheckErrors { cap := 4, queue := d1.sent ++ d2.sent ++ d3.sent ++ d4.sent } with
      | none => { cluster := d4.cluster, calls := calls, response := .blocked }
      | some (errValue, true) =>
        { cluster := d4.cluster, calls := calls, response := .error 400 errValue }
      | some (_, false) =>
        match CreateDestroyResponse model model.Endpoint with
        | (_, some _) =>
          { cluster := d4.cluster, calls := calls, response := .error 400 "Wrong json format" }
        | (message, none) =>
          { cluster := d4.cluster, calls := calls, response := .sent (.destroy message) }

/-- The handler of `POST /transition`. -/
def transitionHandler {σ : Type} (clients : Clients σ) (caseTable : Char → Char)
    (body : Option ModelTransition) (s : σ) : Handled σ :=
  match body with
  | none => { cluster := s, calls := [], response := .error 400 "Wrong json format" }
  | some model =>
    match ParseTransitionParams caseTable model with
    | (_, _, some _) => { cluster := s, calls := [], response := .error 400 "Wrong name" }
    | (model, toDestroy, none) =>
      let t := TransitionService clients.serviceClient model toDestroy s
      match t.ret with
      | .error f => { cluster := t.cluster, calls := t.calls, response := .crash f }
      | .ok (some transErr) =>
        { cluster := t.cluster, calls := t.calls, response := .error 400 transErr.message }
      | .ok none =>
        let d1 := DeleteDeployment clients.deploymentsClient model.Endpoint t.cluster
        let d2 := DeleteService clients.serviceClient toDestroy d1.cluster
        let d3 := DeleteIngress clients.ingressClient toDestroy d2.cluster
        let d4 := DeleteHpa clients.hpaClient model.Endpoint d3.cluster
        let calls := t.calls ++ (d1.calls ++ d2.calls ++ d3.calls ++ d4.calls)
        match CheckErrors { cap := 4, queue := d1.sent ++ d2.sent ++ d3.sent ++ d4.sent } with
        | none => { cluster := d4.cluster, calls := calls, response := .blocked }
        | some (errValue, true) =>
          { cluster := d4.cluster, calls := calls, response := .error 400 errValue }
        | some (_, false) =>
          match CreateTransResponse model.Endpoint with
          | (_, some _) =>
            { cluster := d4.cluster, calls := calls, response := .error 400 "Wrong json format" }
          | (message, none) =>
            { cluster := d4.cluster, calls := calls, response := .sent (.transition message) }

end Main

/-! ## Sample inputs -/

namespace Samples

open Helpers

/-- A fragment of the Unicode case tables: the two runes above `MaxASCII`
whose lower case is an ASCII letter (KELVIN SIGN and LATIN CAPITAL LETTER I
WITH DOT ABOVE); every other rune is left as it is. -/
def sampleCaseTable (r : Char) : Char :=
  if r.toNat = 8490 then 'k' else if r.toNat = 304 then 'i' else r

/-- A production deploy intent with every limit and the accelerator request
set. -/
def fullIntent : ModelDeploy :=
  { Model_names := ["fraud", "churn"]
    Endpoint := "My_Endpoint 01!"
    Image := "000000000000.dkr.ecr.us-east-1.amazonaws.com/name:latest"
    Canary := false
    Canary_weight := none
    Canary_version := none
    Model_stage := "Production"
    Limits := { Memory := some 1024, Cpu := some 500, Gpu := some 2 }
    Requests := { Memory := none, Cpu := none, Gpu := some 1 } }

end Samples

/-! ## Vocabulary of the properties -/

namespace Spec

open Helpers

/-- The errors among the outcomes delivered on a channel, in arrival order. -/
def errorsOf (outcomes : List (Option GoError)) : List GoError :=
  outcomes.filterMap id

/-- The number of line breaks in a text. -/
def lineBreaks (text : String) : Nat := text.data.count '\n'

/-- The messages of the errors, each followed by `terminator`, concatenated in
order. -/
def joinMessages (terminator : String) : List GoError → String
  | [] => ""
  | e :: rest => (e.message ++ terminator) ++ joinMessages terminator rest

/-- The line breaks that occur inside the messages themselves. -/
def innerLineBreaks : List GoError → Nat
  | [] => 0
  | e :: rest => lineBreaks e.message + innerLineBreaks rest

end Spec

namespace Samples

open Helpers

/-- Three outcomes in arrival order: an error, a success, an error. -/
def twoErrors : List (Option GoError) :=
  [some { message := "deployments.apps \"m\" is forbidden", conflict := false }, none,
   some { message := "services \"m\" is invalid", conflict := false }]

end Samples

namespace Spec

open Helpers

/-- The number of `Create` calls in a trace. -/
def creates (calls : List Event) : Nat := calls.countP Event.isCreate

/-- The number of `Update` calls in a trace. -/
def updates (calls : List Event) : Nat := calls.countP Event.isUpdate

/-- The names handed to `Get`, in order. -/
def readNames : List Event → List String
  | [] => []
  | Event.get _ name _ _ :: rest => name :: readNames rest
  | _ :: rest => readNames rest

/-- The `ObjectMeta.Name` of every object handed to `Create` or `Update`, in
order. -/
def writtenNames : List Event → List String
  | [] => []
  | Event.create obj _ :: rest => obj.name :: writtenNames rest
  | Event.update obj _ :: rest => obj.name :: writtenNames rest
  | _ :: rest => writtenNames rest

/-- The number of `Get` calls in a trace. -/
def reads (calls : List Event) : Nat := calls.countP Event.isGet

/-- The get-then-write policy of one operation, given the `answer` of its
client to the read of `endpoint`, the `calls` the operation issued, and
`reported e` saying that the error `e` is the outcome the operation reported.
The read is the first call and the only read. When it succeeded there is
exactly one update and no create. When it failed with a message ending in
"not found" there is exactly one create and no update. When it failed with any
other message there is no create and no update, and the read error is the
reported outcome. -/
def GetThenWrite {ρ : Type} (kind : Kind) (endpoint : String) (wrap : ρ → Object)
    (answer : Except GoError ρ) (calls : List Event) (reported : GoError → Prop) : Prop :=
  match answer with
  | .ok found =>
    calls.head? = some (Event.get kind endpoint (some (wrap found)) none) ∧
    reads calls = 1 ∧ updates calls = 1 ∧ creates calls = 0
  | .error getErr =>
    calls.head? = some (Event.get kind endpoint none (some getErr)) ∧
    reads calls = 1 ∧
    (if HasSuffix getErr.message "not found" then creates calls = 1 ∧ updates calls = 0
     else creates calls = 0 ∧ updates calls = 0 ∧ reported getErr)

/-- The three traces a create-or-update can leave, with the outcome it
reports: read and update; read "not found" and create; read error alone. -/
def UpsertShape (kind : Kind) (endpoint : String) (obj : Object) (calls : List Event)
    (outcome : Option GoError) : Prop :=
  (∃ found, calls = [Event.get kind endpoint (some found) none, Event.update obj outcome]) ∨
  (∃ getErr, HasSuffix getErr.message "not found" = true ∧
    calls = [Event.get kind endpoint none (some getErr), Event.create obj outcome]) ∨
  (∃ getErr, HasSuffix getErr.message "not found" = false ∧
    calls = [Event.get kind endpoint none (some getErr)] ∧ outcome = some getErr)

end Spec

namespace Samples

open Helpers

/-- A client over a one-bit cluster state: the bit says whether the resource
exists; `Get` answers "not found" while it does not, `Create` and `Update`
always succeed. -/
def presenceClient (ρ : Type) (sample : ρ) : Client Bool ρ :=
  { Get := fun s name =>
      if s then (.ok sample, s)
      else
        (.error
          { message := "resource \"" ++ name ++ "\" not found", conflict := false,
            notFound := true }, s)
    Create := fun _ obj => (.ok obj, true)
    Update := fun s obj => (.ok obj, s)
    Delete := fun _ _ => (none, false) }

/-- A canary deploy intent with suffix `"v2"` and weight `"10"`. -/
def canaryIntent : ModelDeploy :=
  { Model_names := ["fraud"]
    Endpoint := "model"
    Image := "000000000000.dkr.ecr.us-east-1.amazonaws.com/name:latest"
    Canary := true
    Canary_weight := some "10"
    Canary_version := some "v2"
    Model_stage := "Production"
    Limits := { Memory := none, Cpu := none, Gpu := none }
    Requests := { Memory := none, Cpu := none, Gpu := none } }

end Samples

namespace Samples

open Helpers

/-- The four clients over the one-bit cluster state. -/
def presenceClients : Clients Bool :=
  { deploymentsClient := presenceClient Deployment (newDeployment fullIntent "" "")
    serviceClient := presenceClient Service (newService fullIntent "")
    ingressClient :=
      presenceClient Ingress
        { ObjectMeta := { Name := "", Namespace := "" }
          Spec := { IngressClassName := none, Rules := [] } }
    hpaClient := presenceClient HorizontalPodAutoscaler (newHpa fullIntent "") }

/-- A canary deploy intent that names a suffix but no weight, as the body
`{"endpoint": "model", "canary": true, "canary_version": "v2"}` gives. -/
def noWeightIntent : ModelDeploy :=
  { Model_names := []
    Endpoint := "model"
    Image := "000000000000.dkr.ecr.us-east-1.amazonaws.com/name:latest"
    Canary := true
    Canary_weight := none
    Canary_version := some "v2"
    Model_stage := "Production"
    Limits := { Memory := none, Cpu := none, Gpu := none }
    Requests := { Memory := none, Cpu := none, Gpu := none } }

end Samples

namespace Spec

open Helpers

/-- The number of `Delete` calls in a trace. -/
def deletes (calls : List Event) : Nat := calls.countP Event.isDelete

/-- Whether `TransitionService` returned the nil error. -/
def cutoverSucceeded {σ : Type} (t : Run σ (Option GoError)) : Bool :=
  match t.ret with
  | .ok none => true
  | _ => false

/-- The service `TransitionService` writes for the service `read`, whose
first port is `port0`: the selector and the first port's name and target port
are replaced, every other field is the one read. -/
def repointed (read : Service) (port0 : ServicePort) (ports : List ServicePort)
    (base suffix : String) : Service :=
  { read with
    Spec :=
      { read.Spec with
        Selector := [("app", base ++ suffix)]
        Ports := { port0 with Name := base, TargetPort := IntOrString.str (base ++ suffix) } ::
          ports } }

end Spec

namespace Samples

open Helpers

/-- The production service of the endpoint `"model"` as a read returns it. -/
def liveService : Service :=
  { ObjectMeta := { Name := "model", Namespace := "namespace", ResourceVersion := "41" }
    Spec :=
      { Selector := [("app", "model")]
        Ports := [{ Name := "model", Protocol := "TCP", Port := 8080,
                    TargetPort := IntOrString.str "model" }]
        ClusterIP := "10.0.0.7"
        ServiceType := "ClusterIP" } }

/-- The error of an update that lost the optimistic-concurrency race. -/
def conflictError : GoError :=
  { message := "Operation cannot be fulfilled on services \"model\": the object has been modified"
    conflict := true }

/-- A service client over a counter of the conflicts still to come: every
read succeeds; an update is refused with a conflict while the counter is
positive, and accepted afterwards. -/
def contendedClient : Client Nat Service :=
  { Get := fun s _ => (.ok liveService, s)
    Create := fun s obj => (.ok obj, s)
    Update := fun s obj =>
      match s with
      | 0 => (.ok obj, 0)
      | n + 1 => (.error conflictError, n)
    Delete := fun s _ => (none, s) }

/-- A client that accepts everything, over any state. -/
def idleClient (ρ : Type) (sample : ρ) : Client Nat ρ :=
  { Get := fun s _ => (.ok sample, s)
    Create := fun s obj => (.ok obj, s)
    Update := fun s obj => (.ok obj, s)
    Delete := fun s _ => (none, s) }

/-- The four clients of a cluster whose service updates conflict. -/
def contendedClients : Clients Nat :=
  { deploymentsClient := idleClient Deployment (newDeployment fullIntent "" "")
    serviceClient := contendedClient
    ingressClient :=
      idleClient Ingress
        { ObjectMeta := { Name := "", Namespace := "" }
          Spec := { IngressClassName := none, Rules := [] } }
    hpaClient := idleClient HorizontalPodAutoscaler (newHpa fullIntent "") }

end Samples

namespace Samples

open Helpers

/-- A production deploy intent whose raw name normalizes to more than 13
runes. -/
def longNameIntent : ModelDeploy :=
  { Model_names := ["fraud"]
    Endpoint := "a_very_long_endpoint_name_here"
    Image := "000000000000.dkr.ecr.us-east-1.amazonaws.com/name:latest"
    Canary := false
    Canary_weight := none
    Canary_version := none
    Model_stage := "Production"
    Limits := { Memory := none, Cpu := none, Gpu := none }
    Requests := { Memory := none, Cpu := none, Gpu := none } }

end Samples

namespace Samples

open Helpers

/-- A read refused for lack of permission: the status reason is Forbidden,
not NotFound, and the text ends in "not found" because the role the binding
names is missing. -/
def forbiddenError : GoError :=
  { message := "deployments.apps \"model\" is forbidden: RBAC: role \"deployer\" not found"
    conflict := false
    notFound := false }

/-- A read answered with the status reason NotFound and the text the client
library gives a 404 that carries no status body. -/
def bareNotFoundError : GoError :=
  { message := "the server could not find the requested resource"
    conflict := false
    notFound := true }

/-- A deployments client whose every read fails with `getErr`, and which
accepts every write. -/
def failingReadClient (getErr : GoError) : Client Unit Deployment :=
  { Get := fun s _ => (.error getErr, s)
    Create := fun s obj => (.ok obj, s)
    Update := fun s obj => (.ok obj, s)
    Delete := fun s _ => (none, s) }

end Samples

/-! ## Properties -/

open Helpers Main

/-- The runes the pattern leaves in place are the ASCII letters and digits. -/
theorem not_matchesPattern_eq (r : Char) :
    (!matchesPattern r) = (isDigitAscii r || isUpperAscii r || isLowerAscii r) := by
  unfold matchesPattern isNonWord isDigitAscii isUpperAscii isLowerAscii
  generalize r.toNat = n
  rw [Bool.eq_iff_iff]
  simp only [Bool.not_eq_true', Bool.or_eq_false_iff, Bool.not_eq_false', Bool.or_eq_true,
    Bool.and_eq_true, decide_eq_true_eq, beq_iff_eq, beq_eq_false_iff_ne, ne_eq]
  omega

theorem ReplaceAllString_data (s : String) :
    (ReplaceAllString s).data =
      s.data.filter (fun r => isDigitAscii r || isUpperAscii r || isLowerAscii r) := by
  unfold ReplaceAllString
  simp only [not_matchesPattern_eq]

/-- The `len(runes) >= 14` branch and the other one together keep the first 13
runes. -/
theorem truncate_eq_take (runes : List Char) :
    (if runes.length ≥ 14 then String.mk (runes.take 13) else String.mk runes) =
      String.mk (runes.take 13) := by
  split
  · rfl
  · rw [List.take_of_length_le (by omega)]

theorem ParseModelParams_endpoint (caseTable : Char → Char) (model : ModelDeploy) :
    (ParseModelParams caseTable model).endpoint = deriveSpec caseTable model.Endpoint := by
  have h : (correctGpu model).Endpoint = model.Endpoint := by
    unfold correctGpu
    split
    · split <;> rfl
    · rfl
  simp only [ParseModelParams, truncate_eq_take, ReplaceAllString_data, ToLower, h, deriveSpec]

theorem toNat_ofNat_shift (n : Nat) (h1 : 65 ≤ n) (h2 : n ≤ 90) :
    (Char.ofNat (n + 32)).toNat = n + 32 := by
  interval_cases n <;> rfl

/-- A rune that `unicode.ToLower` returns is no ASCII capital, provided the
case tables return none for the runes above `MaxASCII`. -/
theorem unicodeToLower_not_upper (caseTable : Char → Char)
    (hTable : ∀ r : Char, 128 ≤ r.toNat → isUpperAscii (caseTable r) = false) (r : Char) :
    isUpperAscii (unicodeToLower caseTable r) = false := by
  unfold unicodeToLower
  split
  · split
    · rename_i h
      have h' := h
      simp only [isUpperAscii, Bool.and_eq_true, decide_eq_true_eq] at h'
      simp only [isUpperAscii, toNat_ofNat_shift _ h'.1 h'.2, Bool.and_eq_false_iff,
        decide_eq_false_iff_not]
      omega
    · rename_i h
      simpa using h
  · exact hTable r (by omega)

/-- Go `unicode.ToLower` leaves an ASCII lower-case letter or digit as it is. -/
theorem unicodeToLower_fixed (caseTable : Char → Char) (r : Char)
    (h : (isLowerAscii r || isDigitAscii r) = true) : unicodeToLower caseTable r = r := by
  simp only [isLowerAscii, isDigitAscii, Bool.or_eq_true, Bool.and_eq_true,
    decide_eq_true_eq] at h
  unfold unicodeToLower
  rw [if_pos (by omega), if_neg]
  simp only [isUpperAscii, Bool.and_eq_true, decide_eq_true_eq]
  omega

/-- Every rune of the derived identifier is an ASCII lower-case letter or a
digit, under the same proviso on the case tables. -/
theorem deriveSpec_chars (caseTable : Char → Char)
    (hTable : ∀ r : Char, 128 ≤ r.toNat → isUpperAscii (caseTable r) = false) (raw : String) :
    ∀ r ∈ (deriveSpec caseTable raw).data, (isLowerAscii r || isDigitAscii r) = true := by
  intro r hr
  have hr' := List.mem_of_mem_take hr
  rw [List.mem_filter, List.mem_map] at hr'
  obtain ⟨⟨a, -, rfl⟩, hk⟩ := hr'
  have hu := unicodeToLower_not_upper caseTable hTable a
  rw [hu] at hk
  simpa [Bool.or_comm] using hk

theorem deriveSpec_length (caseTable : Char → Char) (raw : String) :
    (deriveSpec caseTable raw).length ≤ 13 := by
  simp only [deriveSpec, String.length, List.length_take]
  omega

/-- Deriving from an identifier that is already derived changes nothing. -/
theorem deriveSpec_idem (caseTable : Char → Char)
    (hTable : ∀ r : Char, 128 ≤ r.toNat → isUpperAscii (caseTable r) = false) (raw : String) :
    deriveSpec caseTable (deriveSpec caseTable raw) = deriveSpec caseTable raw := by
  have hc := deriveSpec_chars caseTable hTable raw
  have hl := deriveSpec_length caseTable raw
  generalize deriveSpec caseTable raw = d at hc hl
  unfold deriveSpec
  have hmap : d.data.map (unicodeToLower caseTable) = d.data := by
    conv_rhs => rw [← List.map_id d.data]
    apply List.map_congr_left
    intro r hr
    simpa using unicodeToLower_fixed caseTable r (hc r hr)
  have hfil : d.data.filter (fun r => isDigitAscii r || isUpperAscii r || isLowerAscii r)
      = d.data := by
    rw [List.filter_eq_self]
    intro r hr
    have := hc r hr
    simp only [Bool.or_eq_true] at this ⊢
    tauto
  rw [hmap, hfil, List.take_of_length_le (show d.data.length ≤ 13 from hl)]

theorem sampleCaseTable_not_upper :
    ∀ r : Char, 128 ≤ r.toNat → isUpperAscii (Samples.sampleCaseTable r) = false := by
  intro r hr
  unfold Samples.sampleCaseTable
  split
  · rfl
  · split
    · rfl
    · simp only [isUpperAscii, Bool.and_eq_false_iff, decide_eq_false_iff_not]
      omega

theorem deriveSpec_eq (caseTable : Char → Char) (raw : String) :
    deriveSpec caseTable raw =
      String.mk ((ReplaceAllString (ToLower caseTable raw)).data.take 13) := by
  rw [ReplaceAllString_data]
  rfl

/-- C1: for every raw endpoint name, `ParseModelParams`, `ParseDestroyParams`
(canary flag unset) and `ParseTransitionParams` compute the same base
identifier, namely the lower-cased name with every rune that is not an ASCII
letter or digit deleted, cut to its first 13 runes; it has at most 13 runes,
and they are lower-case letters and digits (the Unicode case tables never
return an ASCII capital). -/
theorem C1_base_identifier (caseTable : Char → Char) (raw : String)
    (deploy : ModelDeploy) (destroy : ModelDestroy) (transition : ModelTransition)
    (hDeploy : deploy.Endpoint = raw) (hDestroy : destroy.Endpoint = raw)
    (hCanary : destroy.Canary = false) (hTransition : transition.Endpoint = raw) :
    (ParseModelParams caseTable deploy).endpoint = deriveSpec caseTable raw ∧
    ParseDestroyParams caseTable destroy =
      .ok ({ destroy with Endpoint := deriveSpec caseTable raw }, none) ∧
    (ParseTransitionParams caseTable transition).1 =
      { transition with Endpoint := deriveSpec caseTable raw } ∧
    (deriveSpec caseTable raw).length ≤ 13 ∧
    ((∀ r : Char, 128 ≤ r.toNat → isUpperAscii (caseTable r) = false) →
      ∀ r ∈ (deriveSpec caseTable raw).data, isLowerAscii r = true ∨ isDigitAscii r = true) := by
  refine ⟨?_, ?_, ?_, deriveSpec_length caseTable raw, ?_⟩
  · rw [ParseModelParams_endpoint, hDeploy]
  · by_cases hlen : (ReplaceAllString (ToLower caseTable raw)).data.length ≥ 14
    · simp only [ParseDestroyParams, hDestroy, hlen, if_true, hCanary, Bool.false_eq_true,
        if_false, deriveSpec_eq]
    · have ht := List.take_of_length_le (show (ReplaceAllString (ToLower caseTable raw)).data.length
        ≤ 13 by omega)
      simp only [ParseDestroyParams, hDestroy, hlen, if_false, hCanary, Bool.false_eq_true,
        deriveSpec_eq, ht]
  · by_cases hlen : (ReplaceAllString (ToLower caseTable raw)).data.length ≥ 14
    · simp only [ParseTransitionParams, hTransition, hlen, if_true, deriveSpec_eq]
    · have ht := List.take_of_length_le (show (ReplaceAllString (ToLower caseTable raw)).data.length
        ≤ 13 by omega)
      simp only [ParseTransitionParams, hTransition, hlen, if_false, deriveSpec_eq, ht]
  · intro hTable r hr
    simpa using deriveSpec_chars caseTable hTable raw r hr

/-- C1 at the raw name `"My_Endpoint 01!"`, whose identifier is
`"myendpoint01"`. -/
theorem C1_base_identifier_witness :
    (ParseModelParams Samples.sampleCaseTable Samples.fullIntent).endpoint = "myendpoint01" ∧
    ParseDestroyParams Samples.sampleCaseTable ⟨"My_Endpoint 01!", false, some "v2"⟩ =
      .ok (⟨"myendpoint01", false, some "v2"⟩, none) ∧
    (ParseTransitionParams Samples.sampleCaseTable ⟨"My_Endpoint 01!", some "v2"⟩).1 =
      ⟨"myendpoint01", some "v2"⟩ ∧
    ("myendpoint01" : String).length ≤ 13 ∧
    (∀ r ∈ ("myendpoint01" : String).data, isLowerAscii r = true ∨ isDigitAscii r = true) := by
  have h := C1_base_identifier Samples.sampleCaseTable "My_Endpoint 01!" Samples.fullIntent
    ⟨"My_Endpoint 01!", false, some "v2"⟩ ⟨"My_Endpoint 01!", some "v2"⟩ rfl rfl rfl rfl
  have hd : deriveSpec Samples.sampleCaseTable "My_Endpoint 01!" = "myendpoint01" := by decide
  rw [hd] at h
  exact ⟨h.1, h.2.1, h.2.2.1, h.2.2.2.1, h.2.2.2.2 sampleCaseTable_not_upper⟩

/-- C10: deriving the identifier of an identifier that `ParseModelParams`
derived returns it unchanged (the Unicode case tables never return an ASCII
capital). -/
theorem C10_derive_idempotent (caseTable : Char → Char)
    (hTable : ∀ r : Char, 128 ≤ r.toNat → isUpperAscii (caseTable r) = false)
    (model : ModelDeploy) :
    (ParseModelParams caseTable
        { model with Endpoint := (ParseModelParams caseTable model).endpoint }).endpoint =
      (ParseModelParams caseTable model).endpoint := by
  rw [ParseModelParams_endpoint, ParseModelParams_endpoint]
  exact deriveSpec_idem caseTable hTable model.Endpoint

/-- C10 at the raw name `"My_Endpoint 01!"`. -/
theorem C10_derive_idempotent_witness :
    (ParseModelParams Samples.sampleCaseTable
        { Samples.fullIntent with
          Endpoint := (ParseModelParams Samples.sampleCaseTable Samples.fullIntent).endpoint
        }).endpoint =
      (ParseModelParams Samples.sampleCaseTable Samples.fullIntent).endpoint :=
  C10_derive_idempotent Samples.sampleCaseTable sampleCaseTable_not_upper Samples.fullIntent

/-! ### The fan-out join -/

theorem receiveLoop_full (cap : Nat) (queue : List (Option GoError)) :
    ∀ (i : Nat) (errorsSet : List GoError), queue ≠ [] → i + queue.length = cap →
      receiveLoop cap queue i errorsSet = some (errorsSet ++ Spec.errorsOf queue) := by
  induction queue with
  | nil => intro i errorsSet h; exact absurd rfl h
  | cons crudErr rest ih =>
    intro i errorsSet _ hlen
    simp only [List.length_cons] at hlen
    unfold receiveLoop
    by_cases hrest : rest = []
    · subst hrest
      simp only [List.length_nil] at hlen
      rw [if_pos (by omega)]
      cases crudErr <;> simp [Spec.errorsOf]
    · have hpos : 0 < rest.length := List.length_pos.mpr hrest
      rw [if_neg (by omega), ih _ _ hrest (by omega)]
      cases crudErr <;> simp [Spec.errorsOf]

theorem joinErrors_eq (errs : List GoError) :
    ∀ (valueErr : String) (checkErr : Bool),
      joinErrors errs (valueErr, checkErr) =
        (valueErr ++ Spec.joinMessages " \n" errs, checkErr || !errs.isEmpty) := by
  induction errs with
  | nil => intro v c; simp [joinErrors, Spec.joinMessages]
  | cons e rest ih =>
    intro v c
    simp only [joinErrors, ih, Spec.joinMessages, List.isEmpty_cons, Bool.not_false,
      Bool.or_true, Bool.true_or, String.append_assoc]

theorem lineBreaks_append (a b : String) :
    Spec.lineBreaks (a ++ b) = Spec.lineBreaks a + Spec.lineBreaks b := by
  simp [Spec.lineBreaks, String.data_append, List.count_append]

theorem lineBreaks_joinMessages (errs : List GoError) :
    Spec.lineBreaks (Spec.joinMessages " \n" errs) = errs.length + Spec.innerLineBreaks errs := by
  induction errs with
  | nil => rfl
  | cons e rest ih =>
    have h1 : Spec.lineBreaks " \n" = 1 := by decide
    simp only [Spec.joinMessages, lineBreaks_append, ih, h1, List.length_cons,
      Spec.innerLineBreaks]
    omega

/-- C4 (amended): when the N >= 1 outcomes delivered on a channel of capacity N
hold K errors, `CheckErrors` returns; the flag is true exactly when K > 0; the
text is the K messages in arrival order, each followed by a space and a line
break; and it holds K line breaks besides those inside the messages, hence
exactly K when no message has a line break of its own. -/
theorem C4_check_errors_join (outcomes : List (Option GoError)) (hN : 1 ≤ outcomes.length) :
    ∃ (text : String) (flag : Bool),
      CheckErrors { cap := outcomes.length, queue := outcomes } = some (text, flag) ∧
      (flag = true ↔ 0 < (Spec.errorsOf outcomes).length) ∧
      text = Spec.joinMessages " \n" (Spec.errorsOf outcomes) ∧
      Spec.lineBreaks text =
        (Spec.errorsOf outcomes).length + Spec.innerLineBreaks (Spec.errorsOf outcomes) ∧
      (Spec.innerLineBreaks (Spec.errorsOf outcomes) = 0 →
        Spec.lineBreaks text = (Spec.errorsOf outcomes).length) := by
  have hne : outcomes ≠ [] := by
    intro h
    rw [h] at hN
    exact absurd hN (by decide)
  refine ⟨Spec.joinMessages " \n" (Spec.errorsOf outcomes),
    !(Spec.errorsOf outcomes).isEmpty, ?_, ?_, rfl, lineBreaks_joinMessages _, ?_⟩
  · simp only [CheckErrors, receiveLoop_full outcomes.length outcomes 0 [] hne (by omega), List.nil_append,
      joinErrors_eq, Bool.false_or, String.empty_append]
  · cases h : Spec.errorsOf outcomes <;> simp
  · intro h0
    rw [lineBreaks_joinMessages, h0, Nat.add_zero]

/-- C4 on three outcomes, two of them errors without a line break inside. -/
theorem C4_check_errors_join_witness :
    ∃ (text : String) (flag : Bool),
      CheckErrors { cap := 3, queue := Samples.twoErrors } = some (text, flag) ∧
      (flag = true ↔ 0 < (Spec.errorsOf Samples.twoErrors).length) ∧
      text = Spec.joinMessages " \n" (Spec.errorsOf Samples.twoErrors) ∧
      Spec.lineBreaks text = 2 := by
  obtain ⟨text, flag, h1, h2, h3, -, h5⟩ :=
    C4_check_errors_join Samples.twoErrors (by decide)
  exact ⟨text, flag, h1, h2, h3, h5 (by decide)⟩

/-- C4 as stated fails on one error whose message has a line break inside: the
text is not the message followed by a line break, and it has two line breaks
for K = 1. -/
theorem C4_counterexample :
    CheckErrors { cap := 1, queue := [some { message := "a\nb", conflict := false }] } =
      some ("a\nb \n", true) ∧
    (Spec.errorsOf [some { message := "a\nb", conflict := false }]).length = 1 ∧
    ("a\nb \n" : String) ≠ Spec.joinMessages "\n" [{ message := "a\nb", conflict := false }] ∧
    Spec.lineBreaks "a\nb \n" = 2 := by
  decide

/-! ### Create-or-update -/

theorem CrudDeployment_shape {σ : Type} (client : Client σ Deployment) (model : ModelDeploy)
    (model_names endpoint : String) (s : σ) :
    ∃ outcome, (CrudDeployment client model model_names endpoint s).sent = [outcome] ∧
      (CrudDeployment client model model_names endpoint s).ret = .ok () ∧
      Spec.UpsertShape Kind.deployment endpoint
        (Object.deployment (newDeployment model model_names endpoint))
        (CrudDeployment client model model_names endpoint s).calls outcome := by
  unfold CrudDeployment Spec.UpsertShape
  rcases client.Get s endpoint with ⟨getErr | found, s1⟩
  · dsimp only
    by_cases hsuf : HasSuffix getErr.message "not found" = true
    · rw [if_pos hsuf]
      rcases client.Create s1 (newDeployment model model_names endpoint) with ⟨err | _, s2⟩
      · exact ⟨some err, rfl, rfl, Or.inr (Or.inl ⟨getErr, hsuf, rfl⟩)⟩
      · exact ⟨none, rfl, rfl, Or.inr (Or.inl ⟨getErr, hsuf, rfl⟩)⟩
    · rw [if_neg hsuf]
      exact ⟨some getErr, rfl, rfl, Or.inr (Or.inr ⟨getErr, by simpa using hsuf, rfl, rfl⟩)⟩
  · dsimp only
    rcases client.Update s1 (newDeployment model model_names endpoint) with ⟨err | _, s2⟩
    · exact ⟨some err, rfl, rfl, Or.inl ⟨_, rfl⟩⟩
    · exact ⟨none, rfl, rfl, Or.inl ⟨_, rfl⟩⟩

theorem CrudService_shape {σ : Type} (client : Client σ Service) (model : ModelDeploy)
    (endpoint : String) (s : σ) :
    ∃ outcome, (CrudService client model endpoint s).sent = [outcome] ∧
      (CrudService client model endpoint s).ret = .ok () ∧
      Spec.UpsertShape Kind.service endpoint (Object.service (newService model endpoint))
        (CrudService client model endpoint s).calls outcome := by
  unfold CrudService Spec.UpsertShape
  rcases client.Get s endpoint with ⟨getErr | found, s1⟩
  · dsimp only
    by_cases hsuf : HasSuffix getErr.message "not found" = true
    · rw [if_pos hsuf]
      rcases client.Create s1 (newService model endpoint) with ⟨err | _, s2⟩
      · exact ⟨some err, rfl, rfl, Or.inr (Or.inl ⟨getErr, hsuf, rfl⟩)⟩
      · exact ⟨none, rfl, rfl, Or.inr (Or.inl ⟨getErr, hsuf, rfl⟩)⟩
    · rw [if_neg hsuf]
      exact ⟨some getErr, rfl, rfl, Or.inr (Or.inr ⟨getErr, by simpa using hsuf, rfl, rfl⟩)⟩
  · dsimp only
    rcases client.Update s1 (newService model endpoint) with ⟨err | _, s2⟩
    · exact ⟨some err, rfl, rfl, Or.inl ⟨_, rfl⟩⟩
    · exact ⟨none, rfl, rfl, Or.inl ⟨_, rfl⟩⟩

/-- The operation `CrudIngress` either panics in `newIngress`, before any call and any send,
or behaves as the other two. -/
theorem CrudIngress_shape {σ : Type} (client : Client σ Ingress) (model : ModelDeploy)
    (endpoint : String) (s : σ) :
    (∃ f, newIngress model endpoint = .error f ∧
      (CrudIngress client model endpoint s).calls = [] ∧
      (CrudIngress client model endpoint s).sent = [] ∧
      (CrudIngress client model endpoint s).ret = .error f) ∨
    (∃ ingress outcome, newIngress model endpoint = .ok ingress ∧
      (CrudIngress client model endpoint s).sent = [outcome] ∧
      (CrudIngress client model endpoint s).ret = .ok () ∧
      Spec.UpsertShape Kind.ingress endpoint (Object.ingress ingress)
        (CrudIngress client model endpoint s).calls outcome) := by
  unfold CrudIngress Spec.UpsertShape
  rcases newIngress model endpoint with f | ingress
  · exact Or.inl ⟨f, rfl, rfl, rfl, rfl⟩
  · refine Or.inr ⟨ingress, ?_⟩
    dsimp only
    rcases client.Get s endpoint with ⟨getErr | found, s1⟩
    · dsimp only
      by_cases hsuf : HasSuffix getErr.message "not found" = true
      · rw [if_pos hsuf]
        rcases client.Create s1 ingress with ⟨err | _, s2⟩
        · exact ⟨some err, rfl, rfl, rfl, Or.inr (Or.inl ⟨getErr, hsuf, rfl⟩)⟩
        · exact ⟨none, rfl, rfl, rfl, Or.inr (Or.inl ⟨getErr, hsuf, rfl⟩)⟩
      · rw [if_neg hsuf]
        exact ⟨some getErr, rfl, rfl, rfl,
          Or.inr (Or.inr ⟨getErr, by simpa using hsuf, rfl, rfl⟩)⟩
    · dsimp only
      rcases client.Update s1 ingress with ⟨err | _, s2⟩
      · exact ⟨some err, rfl, rfl, rfl, Or.inl ⟨_, rfl⟩⟩
      · exact ⟨none, rfl, rfl, rfl, Or.inl ⟨_, rfl⟩⟩

theorem CrudHpa_shape {σ : Type} (client : Client σ HorizontalPodAutoscaler)
    (model : ModelDeploy) (endpoint : String) (s : σ) :
    ∃ outcome, (CrudHpa client model endpoint s).sent = [] ∧
      (CrudHpa client model endpoint s).ret = .ok outcome ∧
      Spec.UpsertShape Kind.hpa endpoint (Object.hpa (newHpa model endpoint))
        (CrudHpa client model endpoint s).calls outcome := by
  unfold CrudHpa Spec.UpsertShape
  rcases client.Get s endpoint with ⟨getErr | found, s1⟩
  · dsimp only
    by_cases hsuf : HasSuffix getErr.message "not found" = true
    · rw [if_pos hsuf]
      rcases client.Create s1 (newHpa model endpoint) with ⟨err | _, s2⟩
      · exact ⟨some err, rfl, rfl, Or.inr (Or.inl ⟨getErr, hsuf, rfl⟩)⟩
      · exact ⟨none, rfl, rfl, Or.inr (Or.inl ⟨getErr, hsuf, rfl⟩)⟩
    · rw [if_neg hsuf]
      exact ⟨some getErr, rfl, rfl, Or.inr (Or.inr ⟨getErr, by simpa using hsuf, rfl, rfl⟩)⟩
  · dsimp only
    rcases client.Update s1 (newHpa model endpoint) with ⟨err | _, s2⟩
    · exact ⟨some err, rfl, rfl, Or.inl ⟨_, rfl⟩⟩
    · exact ⟨none, rfl, rfl, Or.inl ⟨_, rfl⟩⟩

theorem CrudDeployment_policy {σ : Type} (client : Client σ Deployment) (model : ModelDeploy)
    (model_names endpoint : String) (s : σ) :
    Spec.GetThenWrite Kind.deployment endpoint Object.deployment (client.Get s endpoint).1
      (CrudDeployment client model model_names endpoint s).calls
      (fun e => (CrudDeployment client model model_names endpoint s).sent = [some e]) := by
  unfold CrudDeployment Spec.GetThenWrite
  rcases client.Get s endpoint with ⟨getErr | found, s1⟩
  · dsimp only
    by_cases hsuf : HasSuffix getErr.message "not found" = true
    · rw [if_pos hsuf, if_pos hsuf]
      rcases client.Create s1 (newDeployment model model_names endpoint) with ⟨err | _, s2⟩ <;>
        exact ⟨rfl, rfl, rfl, rfl⟩
    · rw [if_neg hsuf, if_neg hsuf]
      exact ⟨rfl, rfl, rfl, rfl, rfl⟩
  · dsimp only
    rcases client.Update s1 (newDeployment model model_names endpoint) with ⟨err | _, s2⟩ <;>
      exact ⟨rfl, rfl, rfl, rfl⟩

theorem CrudService_policy {σ : Type} (client : Client σ Service) (model : ModelDeploy)
    (endpoint : String) (s : σ) :
    Spec.GetThenWrite Kind.service endpoint Object.service (client.Get s endpoint).1
      (CrudService client model endpoint s).calls
      (fun e => (CrudService client model endpoint s).sent = [some e]) := by
  unfold CrudService Spec.GetThenWrite
  rcases client.Get s endpoint with ⟨getErr | found, s1⟩
  · dsimp only
    by_cases hsuf : HasSuffix getErr.message "not found" = true
    · rw [if_pos hsuf, if_pos hsuf]
      rcases client.Create s1 (newService model endpoint) with ⟨err | _, s2⟩ <;>
        exact ⟨rfl, rfl, rfl, rfl⟩
    · rw [if_neg hsuf, if_neg hsuf]
      exact ⟨rfl, rfl, rfl, rfl, rfl⟩
  · dsimp only
    rcases client.Update s1 (newService model endpoint) with ⟨err | _, s2⟩ <;>
      exact ⟨rfl, rfl, rfl, rfl⟩

/-- The ingress is built unless the intent is a canary without weight. -/
theorem newIngress_ok (model : ModelDeploy) (endpoint : String)
    (hWeight : model.Canary = false ∨ ∃ w, model.Canary_weight = some w) :
    ∃ ingress, newIngress model endpoint = .ok ingress := by
  unfold newIngress createIngressAnnotations
  rcases hWeight with h | ⟨w, h⟩
  · rw [h]
    exact ⟨_, rfl⟩
  · rw [h]
    cases model.Canary <;> exact ⟨_, rfl⟩

theorem CrudIngress_policy {σ : Type} (client : Client σ Ingress) (model : ModelDeploy)
    (endpoint : String) (s : σ)
    (hWeight : model.Canary = false ∨ ∃ w, model.Canary_weight = some w) :
    Spec.GetThenWrite Kind.ingress endpoint Object.ingress (client.Get s endpoint).1
      (CrudIngress client model endpoint s).calls
      (fun e => (CrudIngress client model endpoint s).sent = [some e]) := by
  obtain ⟨ingress, hok⟩ := newIngress_ok model endpoint hWeight
  unfold CrudIngress Spec.GetThenWrite
  rw [hok]
  dsimp only
  rcases client.Get s endpoint with ⟨getErr | found, s1⟩
  · dsimp only
    by_cases hsuf : HasSuffix getErr.message "not found" = true
    · rw [if_pos hsuf, if_pos hsuf]
      rcases client.Create s1 ingress with ⟨err | _, s2⟩ <;> exact ⟨rfl, rfl, rfl, rfl⟩
    · rw [if_neg hsuf, if_neg hsuf]
      exact ⟨rfl, rfl, rfl, rfl, rfl⟩
  · dsimp only
    rcases client.Update s1 ingress with ⟨err | _, s2⟩ <;> exact ⟨rfl, rfl, rfl, rfl⟩

theorem CrudHpa_policy {σ : Type} (client : Client σ HorizontalPodAutoscaler)
    (model : ModelDeploy) (endpoint : String) (s : σ) :
    Spec.GetThenWrite Kind.hpa endpoint Object.hpa (client.Get s endpoint).1
      (CrudHpa client model endpoint s).calls
      (fun e => (CrudHpa client model endpoint s).ret = .ok (some e)) := by
  unfold CrudHpa Spec.GetThenWrite
  rcases client.Get s endpoint with ⟨getErr | found, s1⟩
  · dsimp only
    by_cases hsuf : HasSuffix getErr.message "not found" = true
    · rw [if_pos hsuf, if_pos hsuf]
      rcases client.Create s1 (newHpa model endpoint) with ⟨err | _, s2⟩ <;>
        exact ⟨rfl, rfl, rfl, rfl⟩
    · rw [if_neg hsuf, if_neg hsuf]
      exact ⟨rfl, rfl, rfl, rfl, rfl⟩
  · dsimp only
    rcases client.Update s1 (newHpa model endpoint) with ⟨err | _, s2⟩ <;>
      exact ⟨rfl, rfl, rfl, rfl⟩

/-- C2 (amended): each of `CrudDeployment`, `CrudService`, `CrudHpa`, and
`CrudIngress` whenever its ingress gets built (the intent is not a canary
without weight), whatever the client answers: the operation issues exactly one
read, first, of the name `endpoint`; when the client answers it with success,
exactly one update and no create is issued; when it answers with an error
whose message ends in "not found", exactly one create and no update is issued;
when it answers with an error of any other message, no create and no update is
issued and that read error is the outcome sent on the channel (returned, for
`CrudHpa`). -/
theorem C2_create_or_update {σ : Type} (clients : Clients σ) (model : ModelDeploy)
    (model_names endpoint : String) (s : σ) :
    Spec.GetThenWrite Kind.deployment endpoint Object.deployment
      (clients.deploymentsClient.Get s endpoint).1
      (CrudDeployment clients.deploymentsClient model model_names endpoint s).calls
      (fun e =>
        (CrudDeployment clients.deploymentsClient model model_names endpoint s).sent = [some e]) ∧
    Spec.GetThenWrite Kind.service endpoint Object.service
      (clients.serviceClient.Get s endpoint).1
      (CrudService clients.serviceClient model endpoint s).calls
      (fun e => (CrudService clients.serviceClient model endpoint s).sent = [some e]) ∧
    ((model.Canary = false ∨ ∃ w, model.Canary_weight = some w) →
      Spec.GetThenWrite Kind.ingress endpoint Object.ingress
        (clients.ingressClient.Get s endpoint).1
        (CrudIngress clients.ingressClient model endpoint s).calls
        (fun e => (CrudIngress clients.ingressClient model endpoint s).sent = [some e])) ∧
    Spec.GetThenWrite Kind.hpa endpoint Object.hpa
      (clients.hpaClient.Get s endpoint).1
      (CrudHpa clients.hpaClient model endpoint s).calls
      (fun e => (CrudHpa clients.hpaClient model endpoint s).ret = .ok (some e)) :=
  ⟨CrudDeployment_policy clients.deploymentsClient model model_names endpoint s,
   CrudService_policy clients.serviceClient model endpoint s,
   CrudIngress_policy clients.ingressClient model endpoint s,
   CrudHpa_policy clients.hpaClient model endpoint s⟩

/-- C2 on the one-bit cluster. Where the deployment is absent the read answers
"not found", and one read, one create and no update are issued; where the
ingress is present the read succeeds, and one read, one update and no create
are issued. -/
theorem C2_create_or_update_witness :
    (Spec.reads (CrudDeployment Samples.presenceClients.deploymentsClient Samples.fullIntent
        "fraud,churn" "myendpoint01" false).calls = 1 ∧
      Spec.creates (CrudDeployment Samples.presenceClients.deploymentsClient Samples.fullIntent
        "fraud,churn" "myendpoint01" false).calls = 1 ∧
      Spec.updates (CrudDeployment Samples.presenceClients.deploymentsClient Samples.fullIntent
        "fraud,churn" "myendpoint01" false).calls = 0) ∧
    (Spec.reads (CrudIngress Samples.presenceClients.ingressClient Samples.fullIntent
        "myendpoint01" true).calls = 1 ∧
      Spec.updates (CrudIngress Samples.presenceClients.ingressClient Samples.fullIntent
        "myendpoint01" true).calls = 1 ∧
      Spec.creates (CrudIngress Samples.presenceClients.ingressClient Samples.fullIntent
        "myendpoint01" true).calls = 0) := by
  have h := C2_create_or_update Samples.presenceClients Samples.fullIntent "fraud,churn"
    "myendpoint01" false
  have h' := (C2_create_or_update Samples.presenceClients Samples.fullIntent "fraud,churn"
    "myendpoint01" true).2.2.1 (Or.inl rfl)
  have hd : _ ∧ Spec.reads _ = 1 ∧ (Spec.creates _ = 1 ∧ Spec.updates _ = 0) := h.1
  have hi : _ ∧ Spec.reads _ = 1 ∧ Spec.updates _ = 1 ∧ Spec.creates _ = 0 := h'
  exact ⟨⟨hd.2.1, hd.2.2.1, hd.2.2.2⟩, hi.2⟩

/-- C2 as stated fails on two read errors. A read refused as Forbidden, which
is not a "not found" error, with a message that ends in "not found": a create
is issued and the read error is not the outcome sent. A read answered NotFound
with a message that does not end in "not found": no create is issued. -/
theorem C2_counterexample :
    Samples.forbiddenError.notFound = false ∧
    Spec.creates (CrudDeployment (Samples.failingReadClient Samples.forbiddenError)
      Samples.fullIntent "fraud,churn" "model" ()).calls = 1 ∧
    (CrudDeployment (Samples.failingReadClient Samples.forbiddenError)
      Samples.fullIntent "fraud,churn" "model" ()).sent = [none] ∧
    Samples.bareNotFoundError.notFound = true ∧
    Spec.creates (CrudDeployment (Samples.failingReadClient Samples.bareNotFoundError)
      Samples.fullIntent "fraud,churn" "model" ()).calls = 0 ∧
    (CrudDeployment (Samples.failingReadClient Samples.bareNotFoundError)
      Samples.fullIntent "fraud,churn" "model" ()).sent = [some Samples.bareNotFoundError] := by
  decide

theorem readNames_of_shape {kind : Kind} {endpoint : String} {obj : Object}
    {calls : List Event} {outcome : Option GoError}
    (h : Spec.UpsertShape kind endpoint obj calls outcome) :
    Spec.readNames calls = [endpoint] ∧
      (Spec.writtenNames calls = [] ∨ Spec.writtenNames calls = [obj.name]) := by
  rcases h with ⟨f, rfl⟩ | ⟨e, _, rfl⟩ | ⟨e, _, rfl, rfl⟩
  · exact ⟨rfl, Or.inr rfl⟩
  · exact ⟨rfl, Or.inr rfl⟩
  · exact ⟨rfl, Or.inl rfl⟩

/-- C3 fails on the canary intent with endpoint `"model"` and suffix `"v2"`:
whatever the clients answer, `CrudDeployment`, `CrudService` and `CrudIngress`
read under the name `"model"`, while the object they write, if they write, is
named `"modelv2"`; on a cluster where `"model"` is absent all three do write
it. -/
theorem C3_read_name_is_not_written_name {σ : Type} (clients : Clients σ) (s : σ) :
    (ParseModelParams Samples.sampleCaseTable Samples.canaryIntent).endpoint = "model" ∧
    (newDeployment Samples.canaryIntent "fraud" "model").ObjectMeta.Name = "modelv2" ∧
    (newService Samples.canaryIntent "model").ObjectMeta.Name = "modelv2" ∧
    (∃ ingress, newIngress Samples.canaryIntent "model" = .ok ingress ∧
      ingress.ObjectMeta.Name = "modelv2") ∧
    Spec.readNames
      (CrudDeployment clients.deploymentsClient Samples.canaryIntent "fraud" "model" s).calls =
        ["model"] ∧
    (Spec.writtenNames
      (CrudDeployment clients.deploymentsClient Samples.canaryIntent "fraud" "model" s).calls = [] ∨
     Spec.writtenNames
      (CrudDeployment clients.deploymentsClient Samples.canaryIntent "fraud" "model" s).calls =
        ["modelv2"]) ∧
    Spec.readNames (CrudService clients.serviceClient Samples.canaryIntent "model" s).calls =
      ["model"] ∧
    (Spec.writtenNames (CrudService clients.serviceClient Samples.canaryIntent "model" s).calls =
      [] ∨
     Spec.writtenNames (CrudService clients.serviceClient Samples.canaryIntent "model" s).calls =
      ["modelv2"]) ∧
    Spec.readNames (CrudIngress clients.ingressClient Samples.canaryIntent "model" s).calls =
      ["model"] ∧
    (Spec.writtenNames (CrudIngress clients.ingressClient Samples.canaryIntent "model" s).calls =
      [] ∨
     Spec.writtenNames (CrudIngress clients.ingressClient Samples.canaryIntent "model" s).calls =
      ["modelv2"]) ∧
    Spec.writtenNames (CrudDeployment Samples.presenceClients.deploymentsClient
      Samples.canaryIntent "fraud" "model" false).calls = ["modelv2"] ∧
    Spec.writtenNames (CrudService Samples.presenceClients.serviceClient
      Samples.canaryIntent "model" false).calls = ["modelv2"] ∧
    Spec.writtenNames (CrudIngress Samples.presenceClients.ingressClient
      Samples.canaryIntent "model" false).calls = ["modelv2"] := by
  obtain ⟨_, -, -, hd⟩ :=
    CrudDeployment_shape clients.deploymentsClient Samples.canaryIntent "fraud" "model" s
  obtain ⟨_, -, -, hs⟩ := CrudService_shape clients.serviceClient Samples.canaryIntent "model" s
  obtain ⟨ing, hok, hname⟩ : ∃ ingress, newIngress Samples.canaryIntent "model" = .ok ingress ∧
      ingress.ObjectMeta.Name = "modelv2" := ⟨_, rfl, rfl⟩
  have hi : ∃ outcome, Spec.UpsertShape Kind.ingress "model" (Object.ingress ing)
      (CrudIngress clients.ingressClient Samples.canaryIntent "model" s).calls outcome := by
    rcases CrudIngress_shape clients.ingressClient Samples.canaryIntent "model" s with
      ⟨f, hf, -⟩ | ⟨ingress, o, hn, -, -, hshape⟩
    · rw [hok] at hf
      exact Except.noConfusion hf
    · rw [hok] at hn
      rw [Except.ok.inj hn]
      exact ⟨o, hshape⟩
  obtain ⟨_, hi⟩ := hi
  have rd := readNames_of_shape hd
  have rs := readNames_of_shape hs
  have ri := readNames_of_shape hi
  simp only [Object.name, hname] at ri
  exact ⟨by decide, by decide, by decide, ⟨ing, hok, hname⟩, rd.1, rd.2, rs.1, rs.2, ri.1, ri.2,
    by decide, by decide, by decide⟩

/-! ### One outcome per launched operation -/

/-- Each of the four delete operations sends exactly one value, and the other
two create-or-update operations do, whatever the client answers. -/
theorem fanout_sends_once {σ : Type} (clients : Clients σ) (model : ModelDeploy)
    (model_names endpoint : String) (s : σ) :
    (DeleteDeployment clients.deploymentsClient endpoint s).sent.length = 1 ∧
    (DeleteService clients.serviceClient endpoint s).sent.length = 1 ∧
    (DeleteIngress clients.ingressClient endpoint s).sent.length = 1 ∧
    (DeleteHpa clients.hpaClient endpoint s).sent.length = 1 ∧
    (CrudDeployment clients.deploymentsClient model model_names endpoint s).sent.length = 1 ∧
    (CrudService clients.serviceClient model endpoint s).sent.length = 1 := by
  refine ⟨?_, ?_, ?_, ?_, ?_, ?_⟩
  · unfold DeleteDeployment
    rcases clients.deploymentsClient.Delete s endpoint with ⟨_ | _, s1⟩ <;> rfl
  · unfold DeleteService
    rcases clients.serviceClient.Delete s endpoint with ⟨_ | _, s1⟩ <;> rfl
  · unfold DeleteIngress
    rcases clients.ingressClient.Delete s endpoint with ⟨_ | _, s1⟩ <;> rfl
  · unfold DeleteHpa
    rcases clients.hpaClient.Delete s endpoint with ⟨_ | _, s1⟩ <;> rfl
  · obtain ⟨o, hs, -⟩ := CrudDeployment_shape clients.deploymentsClient model model_names endpoint s
    rw [hs]; rfl
  · obtain ⟨o, hs, -⟩ := CrudService_shape clients.serviceClient model endpoint s
    rw [hs]; rfl

/-- C5 fails on the canary intent without a weight: whatever the clients
answer, `CrudIngress` panics on the nil weight before it reads and before it
sends, so the channel of capacity 3 gets the two values of the other two
operations, on which `CheckErrors` never returns, and the handler ends in the
panic. -/
theorem C5_crud_ingress_sends_nothing {σ : Type} (clients : Clients σ) (caseTable : Char → Char)
    (s : σ) :
    (CrudIngress clients.ingressClient Samples.noWeightIntent "model" s).sent = [] ∧
    (CrudIngress clients.ingressClient Samples.noWeightIntent "model" s).ret =
      .error Fault.nilDereference ∧
    ((CrudDeployment clients.deploymentsClient Samples.noWeightIntent "" "model" s).sent ++
      (CrudService clients.serviceClient Samples.noWeightIntent "model" s).sent ++
      (CrudIngress clients.ingressClient Samples.noWeightIntent "model" s).sent).length = 2 ∧
    CheckErrors
      { cap := 3
        queue :=
          (CrudDeployment clients.deploymentsClient Samples.noWeightIntent "" "model" s).sent ++
          (CrudService clients.serviceClient Samples.noWeightIntent "model" s).sent ++
          (CrudIngress clients.ingressClient Samples.noWeightIntent "model" s).sent } = none ∧
    (deployHandler clients caseTable (some Samples.noWeightIntent) s).response =
      Response.crash Fault.nilDereference := by
  obtain ⟨o1, h1, -⟩ :=
    CrudDeployment_shape clients.deploymentsClient Samples.noWeightIntent "" "model" s
  obtain ⟨o2, h2, -⟩ := CrudService_shape clients.serviceClient Samples.noWeightIntent "model" s
  have h3 : (CrudIngress clients.ingressClient Samples.noWeightIntent "model" s).sent = [] := rfl
  refine ⟨rfl, rfl, ?_, ?_, rfl⟩
  · rw [h1, h2, h3]; rfl
  · rw [h1, h2, h3]
    cases o1 <;> cases o2 <;> rfl

/-! ### Cutover before teardown -/

/-- What one attempt of the cutover can leave: a failed read; a read followed
by a panic; or a read of a service with a first port, followed by the update of
that service repointed, whose answer is the attempt's result. -/
theorem transitionAttempt_shape {σ : Type} (client : Client σ Service) (model : ModelTransition)
    (s : σ) :
    (∃ getErr, (transitionAttempt client model s).calls =
        [Event.get Kind.service model.Endpoint none (some getErr)] ∧
      (transitionAttempt client model s).ret = .ok (some getErr)) ∨
    (∃ read f, (transitionAttempt client model s).calls =
        [Event.get Kind.service model.Endpoint (some (Object.service read)) none] ∧
      (transitionAttempt client model s).ret = .error f) ∨
    (∃ read port0 ports suffix outcome, model.Canary_version = some suffix ∧
      read.Spec.Ports = port0 :: ports ∧
      (transitionAttempt client model s).calls =
        [Event.get Kind.service model.Endpoint (some (Object.service read)) none,
         Event.update (Object.service (Spec.repointed read port0 ports model.Endpoint suffix))
           outcome] ∧
      (transitionAttempt client model s).ret = .ok outcome) := by
  unfold transitionAttempt
  rcases client.Get s model.Endpoint with ⟨getErr | read, s1⟩
  · exact Or.inl ⟨getErr, rfl, rfl⟩
  · dsimp only
    rcases hv : model.Canary_version with _ | suffix
    · exact Or.inr (Or.inl ⟨read, _, rfl, rfl⟩)
    · dsimp only
      rcases hp : read.Spec.Ports with _ | ⟨port0, ports⟩
      · exact Or.inr (Or.inl ⟨read, _, rfl, rfl⟩)
      · dsimp only
        exact Or.inr (Or.inr ⟨read, port0, ports, suffix, _, rfl, hp, rfl, rfl⟩)

theorem transitionAttempt_deletes {σ : Type} (client : Client σ Service)
    (model : ModelTransition) (s : σ) :
    Spec.deletes (transitionAttempt client model s).calls = 0 := by
  rcases transitionAttempt_shape client model s with
    ⟨e, hc, -⟩ | ⟨r, f, hc, -⟩ | ⟨r, p, ps, v, o, -, -, hc, -⟩ <;> rw [hc] <;> rfl

/-- The retry loop issues no call of its own: a loop over attempts that
delete nothing deletes nothing. -/
theorem retryLoop_deletes {σ : Type} (fn : σ → Run σ (Option GoError))
    (hfn : ∀ s, Spec.deletes (fn s).calls = 0) :
    ∀ (steps : Nat) (lastErr : Option GoError) (s : σ),
      Spec.deletes (retryLoop fn steps lastErr s).calls = 0 := by
  intro steps
  induction steps with
  | zero => intro lastErr s; rfl
  | succ n ih =>
    intro lastErr s
    unfold retryLoop
    dsimp only
    rcases hr : (fn s).ret with f | _ | err
    · exact hfn s
    · exact hfn s
    · dsimp only
      by_cases hc : err.conflict = true
      · rw [if_pos hc]
        have h1 := hfn s
        have h2 := ih (some err) (fn s).cluster
        simp only [Spec.deletes, List.countP_append] at h1 h2 ⊢
        omega
      · rw [if_neg hc]
        exact hfn s

theorem TransitionService_deletes {σ : Type} (client : Client σ Service)
    (model : ModelTransition) (toDestroy : String) (s : σ) :
    Spec.deletes (TransitionService client model toDestroy s).calls = 0 :=
  retryLoop_deletes _ (transitionAttempt_deletes client model) _ _ _

/-- C6: in the transition handler, whatever the clients answer, when
`TransitionService` does not return success the handler issues exactly the
calls of `TransitionService`, none of which is a delete, and it does not answer
with a reply: it reports the error of the cutover with status 400 (or ends in
the panic of the cutover). -/
theorem C6_no_teardown_before_cutover {σ : Type} (clients : Clients σ)
    (caseTable : Char → Char) (model : ModelTransition) (s : σ)
    (hFail : Spec.cutoverSucceeded
      (TransitionService clients.serviceClient (ParseTransitionParams caseTable model).1
        (ParseTransitionParams caseTable model).2.1 s) = false) :
    (transitionHandler clients caseTable (some model) s).calls =
      (TransitionService clients.serviceClient (ParseTransitionParams caseTable model).1
        (ParseTransitionParams caseTable model).2.1 s).calls ∧
    Spec.deletes (transitionHandler clients caseTable (some model) s).calls = 0 ∧
    ((∃ transErr,
        (TransitionService clients.serviceClient (ParseTransitionParams caseTable model).1
          (ParseTransitionParams caseTable model).2.1 s).ret = .ok (some transErr) ∧
        (transitionHandler clients caseTable (some model) s).response =
          Response.error 400 transErr.message) ∨
     (∃ f,
        (TransitionService clients.serviceClient (ParseTransitionParams caseTable model).1
          (ParseTransitionParams caseTable model).2.1 s).ret = .error f ∧
        (transitionHandler clients caseTable (some model) s).response = Response.crash f)) := by
  have hcalls : (transitionHandler clients caseTable (some model) s).calls =
      (TransitionService clients.serviceClient (ParseTransitionParams caseTable model).1
        (ParseTransitionParams caseTable model).2.1 s).calls ∧
      ((∃ transErr,
        (TransitionService clients.serviceClient (ParseTransitionParams caseTable model).1
          (ParseTransitionParams caseTable model).2.1 s).ret = .ok (some transErr) ∧
        (transitionHandler clients caseTable (some model) s).response =
          Response.error 400 transErr.message) ∨
      (∃ f,
        (TransitionService clients.serviceClient (ParseTransitionParams caseTable model).1
          (ParseTransitionParams caseTable model).2.1 s).ret = .error f ∧
        (transitionHandler clients caseTable (some model) s).response = Response.crash f)) := by
    unfold transitionHandler
    have hp : ParseTransitionParams caseTable model =
        ((ParseTransitionParams caseTable model).1, (ParseTransitionParams caseTable model).2.1,
          none) := rfl
    generalize (ParseTransitionParams caseTable model).1 = m' at hp hFail ⊢
    generalize (ParseTransitionParams caseTable model).2.1 = d at hp hFail ⊢
    simp only [hp]
    unfold Spec.cutoverSucceeded at hFail
    rcases hr : (TransitionService clients.serviceClient m' d s).ret with f | _ | transErr
    · exact ⟨rfl, Or.inr ⟨f, rfl, rfl⟩⟩
    · rw [hr] at hFail
      exact absurd hFail (by decide)
    · exact ⟨rfl, Or.inl ⟨transErr, rfl, rfl⟩⟩
  refine ⟨hcalls.1, ?_, hcalls.2⟩
  rw [hcalls.1]
  exact TransitionService_deletes _ _ _ _

/-- C6 on a cluster where every update of the service conflicts: the five
attempts of the retry budget are used up, the cutover fails, and the handler
issues no delete. -/
theorem C6_no_teardown_before_cutover_witness :
    Spec.cutoverSucceeded
      (TransitionService Samples.contendedClients.serviceClient
        (ParseTransitionParams Samples.sampleCaseTable ⟨"Model", some "v2"⟩).1
        (ParseTransitionParams Samples.sampleCaseTable ⟨"Model", some "v2"⟩).2.1 5) = false ∧
    (transitionHandler Samples.contendedClients Samples.sampleCaseTable
      (some ⟨"Model", some "v2"⟩) 5).calls.length = 10 ∧
    Spec.deletes (transitionHandler Samples.contendedClients Samples.sampleCaseTable
      (some ⟨"Model", some "v2"⟩) 5).calls = 0 :=
  ⟨by decide, by decide,
    (C6_no_teardown_before_cutover Samples.contendedClients Samples.sampleCaseTable
      ⟨"Model", some "v2"⟩ 5 (by decide)).2.1⟩

/-! ### The committed cutover -/

/-- A retry loop that returns success either never ran (no step, no conflict
remembered) or ends with an attempt that returned success. -/
theorem retryLoop_success {σ : Type} (fn : σ → Run σ (Option GoError)) :
    ∀ (steps : Nat) (lastErr : Option GoError) (s : σ),
      (retryLoop fn steps lastErr s).ret = .ok none →
      (steps = 0 ∧ lastErr = none) ∨
      ∃ pre s', (fn s').ret = .ok none ∧
        (retryLoop fn steps lastErr s).calls = pre ++ (fn s').calls := by
  intro steps
  induction steps with
  | zero =>
    intro lastErr s h
    unfold retryLoop at h
    exact Or.inl ⟨rfl, Except.ok.inj h⟩
  | succ n ih =>
    intro lastErr s h
    right
    unfold retryLoop at h ⊢
    dsimp only at h ⊢
    rcases hr : (fn s).ret with f | _ | err
    · rw [hr] at h
      dsimp only at h
      rw [hr] at h
      exact Except.noConfusion h
    · exact ⟨[], s, hr, rfl⟩
    · rw [hr] at h
      dsimp only at h ⊢
      by_cases hc : err.conflict = true
      · rw [if_pos hc] at h ⊢
        dsimp only at h ⊢
        rcases ih (some err) (fn s).cluster h with ⟨-, hnone⟩ | ⟨pre, s', hs', hcalls⟩
        · exact Option.noConfusion hnone
        · exact ⟨(fn s).calls ++ pre, s', hs', by rw [hcalls, List.append_assoc]⟩
      · rw [if_neg hc] at h
        rw [hr] at h
        exact Option.noConfusion (Except.ok.inj h)

/-- C7: whenever `TransitionService` returns success for the base identifier
`model.Endpoint` and a model with canary suffix `suffix`, its last two calls
are the read of the service named `model.Endpoint` and the accepted update of
that very service with the selector set to `app = model.Endpoint + suffix`, the
first port renamed to `model.Endpoint` and targeting the named port
`model.Endpoint + suffix`; the metadata, the other ports, the other fields of
the first port and the other fields of the spec are the ones read. -/
theorem C7_cutover_repoints_service {σ : Type} (client : Client σ Service)
    (model : ModelTransition) (toDestroy : String) (s : σ)
    (hOk : Spec.cutoverSucceeded (TransitionService client model toDestroy s) = true) :
    ∃ (pre : List Event) (read written : Service) (port0 : ServicePort)
      (ports : List ServicePort) (suffix : String),
      model.Canary_version = some suffix ∧
      (TransitionService client model toDestroy s).calls =
        pre ++ [Event.get Kind.service model.Endpoint (some (Object.service read)) none,
                Event.update (Object.service written) none] ∧
      read.Spec.Ports = port0 :: ports ∧
      written = Spec.repointed read port0 ports model.Endpoint suffix ∧
      written.Spec.Selector = [("app", model.Endpoint ++ suffix)] ∧
      written.Spec.Ports =
        { port0 with
          Name := model.Endpoint
          TargetPort := IntOrString.str (model.Endpoint ++ suffix) } :: ports ∧
      written.ObjectMeta = read.ObjectMeta ∧
      written.Spec.ClusterIP = read.Spec.ClusterIP ∧
      written.Spec.ServiceType = read.Spec.ServiceType := by
  have hret : (TransitionService client model toDestroy s).ret = .ok none := by
    unfold Spec.cutoverSucceeded at hOk
    rcases hr : (TransitionService client model toDestroy s).ret with f | _ | e
    · rw [hr] at hOk; exact Bool.noConfusion hOk
    · rfl
    · rw [hr] at hOk; exact Bool.noConfusion hOk
  unfold TransitionService RetryOnConflict at hret ⊢
  rcases retryLoop_success _ _ _ _ hret with ⟨h0, -⟩ | ⟨pre, s', hs', hcalls⟩
  · exact absurd h0 (by decide)
  · rcases transitionAttempt_shape client model s' with
      ⟨e, -, hr⟩ | ⟨r, f, -, hr⟩ | ⟨read, port0, ports, suffix, o, hv, hp, hc, hr⟩
    · rw [hr] at hs'; exact Option.noConfusion (Except.ok.inj hs')
    · rw [hr] at hs'; exact Except.noConfusion hs'
    · rw [hr] at hs'
      have ho : o = none := Except.ok.inj hs'
      subst ho
      exact ⟨pre, read, _, port0, ports, suffix, hv, by rw [hcalls, hc], hp, rfl, rfl, rfl, rfl,
        rfl, rfl⟩

/-- C7 on a cluster where the first update of the service conflicts and the
second is accepted: the service written is the one read, repointed to
`"modelv2"`. -/
theorem C7_cutover_repoints_service_witness :
    ∃ (pre : List Event) (read written : Service) (port0 : ServicePort)
      (ports : List ServicePort) (suffix : String),
      (some "v2" : Option String) = some suffix ∧
      (TransitionService Samples.contendedClient ⟨"model", some "v2"⟩ "modelv2" 1).calls =
        pre ++ [Event.get Kind.service "model" (some (Object.service read)) none,
                Event.update (Object.service written) none] ∧
      read.Spec.Ports = port0 :: ports ∧
      written = Spec.repointed read port0 ports "model" suffix ∧
      written.Spec.Selector = [("app", "model" ++ suffix)] := by
  obtain ⟨pre, read, written, port0, ports, suffix, h1, h2, h3, h4, h5, -⟩ :=
    C7_cutover_repoints_service Samples.contendedClient ⟨"model", some "v2"⟩ "modelv2" 1
      (by decide)
  exact ⟨pre, read, written, port0, ports, suffix, h1, h2, h3, h4, h5⟩

/-! ### Resource limits and requests -/

theorem initResources_gpu (model : ModelDeploy) (l r : Int)
    (hL : model.Limits.Gpu = some l) (hR : model.Requests.Gpu = some r) :
    (initResources model).Limits = [("nvidia.com/gpu", NewMilliQuantity l Format.DecimalSI)] ∧
    (initResources model).Requests = [("nvidia.com/gpu", NewMilliQuantity r Format.DecimalSI)] := by
  obtain ⟨names, ep, img, c, cw, cv, st, ⟨lm, lc, lg⟩, ⟨rm, rc, rg⟩⟩ := model
  dsimp only at hL hR
  subst hL hR
  cases lm <;> cases lc <;> cases rm <;> cases rc <;> exact ⟨rfl, rfl⟩

/-- C8: when a deploy intent sets both the accelerator limit and the
accelerator request, after `ParseModelParams` the request is the limit, the
limit is unchanged, and `initResources` puts the same `nvidia.com/gpu`
quantity under requests as under limits; when one of the two is absent,
`ParseModelParams` leaves the model as it was. -/
theorem C8_accelerator_request_follows_limit (caseTable : Char → Char) (model : ModelDeploy) :
    (∀ l r : Int, model.Limits.Gpu = some l → model.Requests.Gpu = some r →
      (ParseModelParams caseTable model).model.Requests.Gpu = some l ∧
      (ParseModelParams caseTable model).model.Limits.Gpu = some l ∧
      (initResources (ParseModelParams caseTable model).model).Limits.lookup "nvidia.com/gpu" =
        some (NewMilliQuantity l Format.DecimalSI) ∧
      (initResources (ParseModelParams caseTable model).model).Requests.lookup "nvidia.com/gpu" =
        some (NewMilliQuantity l Format.DecimalSI)) ∧
    ((model.Limits.Gpu = none ∨ model.Requests.Gpu = none) →
      (ParseModelParams caseTable model).model = model) := by
  constructor
  · intro l r hL hR
    have hm : (ParseModelParams caseTable model).model.Requests.Gpu = some l ∧
        (ParseModelParams caseTable model).model.Limits.Gpu = some l := by
      show (correctGpu model).Requests.Gpu = some l ∧ (correctGpu model).Limits.Gpu = some l
      unfold correctGpu
      rw [hL, hR]
      dsimp only
      by_cases h : l = r
      · rw [if_neg (by simpa using h)]
        exact ⟨by rw [hR, h], hL⟩
      · rw [if_pos h]
        exact ⟨rfl, hL⟩
    obtain ⟨h1, h2⟩ := initResources_gpu _ l l hm.2 hm.1
    refine ⟨hm.1, hm.2, ?_, ?_⟩
    · rw [h1]; rfl
    · rw [h2]; rfl
  · intro h
    show correctGpu model = model
    unfold correctGpu
    rcases h with h | h
    · rw [h]
    · rw [h]
      cases model.Limits.Gpu <;> rfl

/-- C8 at `limits.gpu = 2`, `requests.gpu = 1`: the effective request is 2. -/
theorem C8_accelerator_request_follows_limit_witness :
    (ParseModelParams Samples.sampleCaseTable Samples.fullIntent).model.Requests.Gpu = some 2 ∧
    (initResources
      (ParseModelParams Samples.sampleCaseTable Samples.fullIntent).model).Requests.lookup
        "nvidia.com/gpu" = some (NewMilliQuantity 2 Format.DecimalSI) ∧
    (ParseModelParams Samples.sampleCaseTable Samples.canaryIntent).model = Samples.canaryIntent :=
  ⟨((C8_accelerator_request_follows_limit Samples.sampleCaseTable Samples.fullIntent).1 2 1
      rfl rfl).1,
   ((C8_accelerator_request_follows_limit Samples.sampleCaseTable Samples.fullIntent).1 2 1
      rfl rfl).2.2.2,
   (C8_accelerator_request_follows_limit Samples.sampleCaseTable Samples.canaryIntent).2
      (Or.inl rfl)⟩

/-- C9 fails on the intent with `limits = {memory: 1024, cpu: 500, gpu: 2}`:
each assignment of `initResources` replaces the whole list, so the limits list
holds the accelerator entry alone, without the memory and cpu entries. -/
theorem C9_limits_overwritten :
    Samples.fullIntent.Limits = { Memory := some 1024, Cpu := some 500, Gpu := some 2 } ∧
    (initResources Samples.fullIntent).Limits =
      [("nvidia.com/gpu", NewMilliQuantity 2 Format.DecimalSI)] ∧
    (initResources Samples.fullIntent).Limits.lookup "memory" = none ∧
    (initResources Samples.fullIntent).Limits.lookup "cpu" = none ∧
    (initResources Samples.fullIntent).Limits.length = 1 := by
  decide

/-! ### The worked example of the derivation -/

/-- C11 (amended): whatever the case tables, the identifier derived from the
raw name `"a_very_long_endpoint_name_here"` is the first 13 runes of its
normalized form `"averylongendpointnamehere"`, namely `"averylongendp"`, and
the three parsers agree on it. -/
theorem C11_long_name_identifier (caseTable : Char → Char) :
    ReplaceAllString (ToLower caseTable "a_very_long_endpoint_name_here") =
      "averylongendpointnamehere" ∧
    (ParseModelParams caseTable Samples.longNameIntent).endpoint = "averylongendp" ∧
    (ParseModelParams caseTable Samples.longNameIntent).endpoint =
      String.mk (("averylongendpointnamehere" : String).data.take 13) ∧
    (ParseModelParams caseTable Samples.longNameIntent).endpoint.length = 13 ∧
    ParseDestroyParams caseTable ⟨"a_very_long_endpoint_name_here", false, none⟩ =
      .ok (⟨"averylongendp", false, none⟩, none) ∧
    (ParseTransitionParams caseTable ⟨"a_very_long_endpoint_name_here", none⟩).1 =
      ⟨"averylongendp", none⟩ := by
  refine ⟨?_, ?_, ?_, ?_, ?_, ?_⟩ <;> rfl

/-- C11 as stated fails: the identifier derived from
`"a_very_long_endpoint_name_here"` is not `"averylongend"`, which has 12 runes
and is not the first 13 runes of the normalized name. -/
theorem C11_counterexample :
    (ParseModelParams Samples.sampleCaseTable Samples.longNameIntent).endpoint ≠ "averylongend" ∧
    ("averylongend" : String).length = 12 ∧
    ("averylongend" : String) ≠
      String.mk ((ReplaceAllString
        (ToLower Samples.sampleCaseTable "a_very_long_endpoint_name_here")).data.take 13) := by
  decide

/-! ### Absent optional fields -/

/-- C12 fails on three well-formed requests. A destroy request with the canary
flag and no suffix: `ParseDestroyParams` panics on the nil suffix, whatever the
name, and the handler ends in that panic without a call. A transition request
with no suffix, on a cluster where the read of the service succeeds:
`TransitionService` panics on the nil suffix after the read, and the handler
ends in that panic. A deploy intent with the canary flag and no weight:
`createIngressAnnotations` panics on the nil weight, whatever the other
fields. -/
theorem C12_absent_fields_are_dereferenced {σ : Type} (clients : Clients σ)
    (caseTable : Char → Char) (raw : String) (model : ModelDeploy) (s : σ) :
    ParseDestroyParams caseTable { Endpoint := raw, Canary := true, Canary_version := none } =
      .error Fault.nilDereference ∧
    (destroyHandler clients caseTable
      (some { Endpoint := raw, Canary := true, Canary_version := none }) s).response =
      Response.crash Fault.nilDereference ∧
    (destroyHandler clients caseTable
      (some { Endpoint := raw, Canary := true, Canary_version := none }) s).calls = [] ∧
    (TransitionService Samples.contendedClient { Endpoint := "model", Canary_version := none }
      "" 0).ret = .error Fault.nilDereference ∧
    (TransitionService Samples.contendedClient { Endpoint := "model", Canary_version := none }
      "" 0).calls =
      [Event.get Kind.service "model" (some (Object.service Samples.liveService)) none] ∧
    (transitionHandler Samples.contendedClients caseTable
      (some { Endpoint := "model", Canary_version := none }) 0).response =
      Response.crash Fault.nilDereference ∧
    createIngressAnnotations { model with Canary := true, Canary_weight := none } =
      .error Fault.nilDereference ∧
    newIngress { model with Canary := true, Canary_weight := none } raw =
      .error Fault.nilDereference := by
  have hd : ParseDestroyParams caseTable
      { Endpoint := raw, Canary := true, Canary_version := none } =
      .error Fault.nilDereference := by
    unfold ParseDestroyParams
    dsimp only
    split <;> rfl
  refine ⟨hd, ?_, ?_, rfl, rfl, rfl, rfl, rfl⟩
  · unfold destroyHandler
    simp only [hd]
  · unfold destroyHandler
    simp only [hd]
